import Mathlib

/-!
Verification development for the Reelify action-driven timeline interpreter.

The TypeScript sources are embedded shallowly:
* `src/core/schema.ts`            → the data model and the zod validation model
* `src/render/EnhancedUIElements.tsx` → `toCanvasCoords` / `getElementCanvasPosition`
* the hybrid renderer scene       → namespace `HybridScene`
* the master (screenshot-only) renderer scene → namespace `MasterScene`
* `src/render/CanvasScene.tsx`    → namespace `CanvasScene`

JavaScript numbers are modelled as rationals (`ℚ`); all arithmetic in the
claims under study is exact at this granularity.  `Math.random()` is modelled
as an ambient stream `rand : ℕ → ℚ` together with a cursor (`randIdx`) in the
interpreter state; the JS contract gives `0 ≤ rand i < 1`.
Each animated tween is modelled by its final value plus the wall-clock span it
suspends the interpreter for; an action step therefore returns the new
presentation state together with the elapsed time of the action.
-/

namespace Reelify

/-- JS truthiness of an optional string: `undefined` and `""` are falsy. -/
def truthy : Option String → Option String
  | none => none
  | some s => if s = "" then none else some s

/-- JS `a || b` on strings (empty string is falsy). -/
def jsOr (a b : String) : String := if a = "" then b else a

/-- String interpolation of a possibly-undefined value (JS prints `undefined`). -/
def optStr : Option String → String
  | none => "undefined"
  | some s => s

/-! ## Data model (src/core/schema.ts) -/

/-- `coordinates` object of `UIElementSchema`: top-left x/y plus size. -/
structure Coordinates where
  x : ℚ
  y : ℚ
  width : ℚ
  height : ℚ
deriving DecidableEq

/-- `z.enum(['button','input','text','image','link','icon','logo','container'])`. -/
inductive ElementType
  | button | input | text | image | link | icon | logo | container
deriving DecidableEq

/-- `z.enum(['light','dark'])`. -/
inductive Theme
  | light | dark
deriving DecidableEq

/-- `ColorSchemeSchema`. -/
structure ColorScheme where
  primary : String
  background : String
  accent : String
  theme : Theme
deriving DecidableEq

/-- `z.enum(['normal','bold','light'])` for `fontWeight`. -/
inductive FontWeight
  | normal | bold | light
deriving DecidableEq

/-- `StylingSchema` (all fields optional; `.nullable().optional()` string
fields are modelled as `Option String`, with JSON `null` collapsing to
`none` — no downstream code distinguishes the two). -/
structure Styling where
  backgroundColor : Option String
  textColor : Option String
  borderRadius : Option ℚ
  borderColor : Option String
  borderWidth : Option ℚ
  shadow : Option String
  fontSize : Option ℚ
  fontWeight : Option FontWeight
  padding : Option ℚ
deriving DecidableEq

/-- `ContentSchema`. -/
structure Content where
  text : Option String
  imagePath : Option String
  svgDescription : Option String
deriving DecidableEq

/-- `UIElementSchema`. -/
structure UIElement where
  id : String
  type : ElementType
  description : String
  coordinates : Coordinates
  styling : Option Styling
  content : Option Content
  parent : Option String
  zIndex : Option ℚ
deriving DecidableEq

/-- `ContainerSchema` (the `type` field is the literal `'container'`). -/
structure Container where
  id : String
  x : ℚ
  y : ℚ
  width : ℚ
  height : ℚ
  backgroundColor : Option String
  children : Option (List String)
deriving DecidableEq

/-- `MetadataSchema`. -/
structure Metadata where
  imageWidth : ℚ
  imageHeight : ℚ
  colorScheme : ColorScheme
deriving DecidableEq

/-- `LayoutSchema`. -/
structure Layout where
  containers : Option (List Container)
deriving DecidableEq

/-- `UIBlueprintSchema`. -/
structure UIBlueprint where
  metadata : Metadata
  layout : Option Layout
  elements : List UIElement
deriving DecidableEq

/-- `SceneMapSchema`. -/
structure SceneMap where
  sceneId : String
  imagePath : String
  colorScheme : ColorScheme
  elements : List UIElement
  blueprint : Option UIBlueprint
deriving DecidableEq

/-- `z.enum(['cursor_move','click','type','wait','switch_scene'])`. -/
inductive ActionType
  | cursor_move | click | type | wait | switch_scene
deriving DecidableEq

/-- The string a JS `switch`/template sees for an action type. -/
def ActionType.str : ActionType → String
  | .cursor_move => "cursor_move"
  | .click => "click"
  | .type => "type"
  | .wait => "wait"
  | .switch_scene => "switch_scene"

/-- `ActionSchema`: `duration` has already received its `.default(1.0)`. -/
structure Action where
  type : ActionType
  targetElementId : Option String
  payload : Option String
  duration : ℚ
deriving DecidableEq

/-- `StoryboardSchema`. -/
structure Storyboard where
  scenes : List SceneMap
  actions : List Action
deriving DecidableEq

/-! ## Coordinate transform (src/render/EnhancedUIElements.tsx) -/

/-- A render-space point (MotionCanvas `Vector2`). -/
structure Vec2 where
  x : ℚ
  y : ℚ
deriving DecidableEq

/-- `toCanvasCoords` of EnhancedUIElements.tsx: top-left rectangle to its
center in the canvas-centered coordinate system of the 1920x1080 canvas. -/
def toCanvasCoords (x y width height : ℚ) : Vec2 :=
  ⟨x + width / 2 - 960, y + height / 2 - 540⟩

/-- `getElementCanvasPosition` of EnhancedUIElements.tsx. -/
def getElementCanvasPosition (e : UIElement) : Vec2 :=
  toCanvasCoords e.coordinates.x e.coordinates.y e.coordinates.width e.coordinates.height

/-! ## Zod validation model (src/core/schema.ts)

The zod schemas are purely structural: each is embedded as a partial
function from a JSON value to the typed shape, `none` meaning a
`parse` failure.  Zod objects ignore unknown keys, `.optional()` fields
accept an absent key, and `.default(1.0)` substitutes the default when
the key is absent. -/

/-- A JSON value. -/
inductive Json
  | null
  | bool (b : Bool)
  | num (q : ℚ)
  | str (s : String)
  | arr (elems : List Json)
  | obj (fields : List (String × Json))

/-- Look up a key of a JSON object (`undefined` when absent or not an object). -/
def getField : Json → String → Option Json
  | .obj fs, k => (fs.find? (fun p => p.1 = k)).map (fun p => p.2)
  | _, _ => none

/-- `z.string()`. -/
def parseString : Json → Option String
  | .str s => some s
  | _ => none

/-- `z.number()`. -/
def parseNumber : Json → Option ℚ
  | .num q => some q
  | _ => none

/-- A required object field parsed by `p`. -/
def reqField (j : Json) (k : String) (p : Json → Option α) : Option α :=
  match getField j k with
  | none => none
  | some v => p v

/-- A `.optional()` field: absent is fine, present must parse. -/
def optField (j : Json) (k : String) (p : Json → Option α) : Option (Option α) :=
  match getField j k with
  | none => some none
  | some v => (p v).map some

/-- A `.nullable().optional()` field: absent and `null` both give `none`. -/
def nullOptField (j : Json) (k : String) (p : Json → Option α) : Option (Option α) :=
  match getField j k with
  | none => some none
  | some .null => some none
  | some v => (p v).map some

/-- `z.array(p)`. -/
def parseAll (p : Json → Option α) : Json → Option (List α)
  | .arr xs => go xs
  | _ => none
where
  go : List Json → Option (List α)
    | [] => some []
    | x :: rest =>
      match p x, go rest with
      | some a, some as => some (a :: as)
      | _, _ => none

/-- `ColorSchemeSchema.parse`. -/
def parseColorScheme (j : Json) : Option ColorScheme :=
  match reqField j "primary" parseString, reqField j "background" parseString,
        reqField j "accent" parseString, reqField j "theme" parseTheme with
  | some p, some b, some a, some t => some ⟨p, b, a, t⟩
  | _, _, _, _ => none
where
  parseTheme : Json → Option Theme
    | .str "light" => some .light
    | .str "dark" => some .dark
    | _ => none

/-- `z.enum([...])` for `fontWeight`. -/
def parseFontWeight : Json → Option FontWeight
  | .str "normal" => some .normal
  | .str "bold" => some .bold
  | .str "light" => some .light
  | _ => none

/-- `StylingSchema.parse`. -/
def parseStyling (j : Json) : Option Styling :=
  match nullOptField j "backgroundColor" parseString,
        nullOptField j "textColor" parseString,
        optField j "borderRadius" parseNumber,
        nullOptField j "borderColor" parseString,
        optField j "borderWidth" parseNumber,
        nullOptField j "shadow" parseString,
        optField j "fontSize" parseNumber,
        optField j "fontWeight" parseFontWeight,
        optField j "padding" parseNumber with
  | some bg, some tc, some br, some bc, some bw, some sh, some fs, some fw, some pd =>
    some ⟨bg, tc, br, bc, bw, sh, fs, fw, pd⟩
  | _, _, _, _, _, _, _, _, _ => none

/-- `ContentSchema.parse`. -/
def parseContent (j : Json) : Option Content :=
  match nullOptField j "text" parseString, nullOptField j "imagePath" parseString,
        nullOptField j "svgDescription" parseString with
  | some t, some ip, some sd => some ⟨t, ip, sd⟩
  | _, _, _ => none

/-- The element `type` enum. -/
def parseElementType : Json → Option ElementType
  | .str "button" => some .button
  | .str "input" => some .input
  | .str "text" => some .text
  | .str "image" => some .image
  | .str "link" => some .link
  | .str "icon" => some .icon
  | .str "logo" => some .logo
  | .str "container" => some .container
  | _ => none

/-- The nested `coordinates` object of `UIElementSchema`. -/
def parseCoordinates (j : Json) : Option Coordinates :=
  match reqField j "x" parseNumber, reqField j "y" parseNumber,
        reqField j "width" parseNumber, reqField j "height" parseNumber with
  | some x, some y, some w, some h => some ⟨x, y, w, h⟩
  | _, _, _, _ => none

/-- `UIElementSchema.parse`. -/
def parseUIElement (j : Json) : Option UIElement :=
  match reqField j "id" parseString, reqField j "type" parseElementType,
        reqField j "description" parseString, reqField j "coordinates" parseCoordinates,
        optField j "styling" parseStyling, optField j "content" parseContent,
        nullOptField j "parent" parseString, optField j "zIndex" parseNumber with
  | some i, some t, some d, some c, some st, some ct, some pa, some z =>
    some ⟨i, t, d, c, st, ct, pa, z⟩
  | _, _, _, _, _, _, _, _ => none

/-- `ContainerSchema.parse` (`type` must be the literal `'container'`). -/
def parseContainer (j : Json) : Option Container :=
  match reqField j "id" parseString, reqField j "type" parseString,
        reqField j "x" parseNumber, reqField j "y" parseNumber,
        reqField j "width" parseNumber, reqField j "height" parseNumber,
        nullOptField j "backgroundColor" parseString,
        optField j "children" (parseAll parseString) with
  | some i, some "container", some x, some y, some w, some h, some bg, some ch =>
    some ⟨i, x, y, w, h, bg, ch⟩
  | _, _, _, _, _, _, _, _ => none

/-- `MetadataSchema.parse`. -/
def parseMetadata (j : Json) : Option Metadata :=
  match reqField j "imageWidth" parseNumber, reqField j "imageHeight" parseNumber,
        reqField j "colorScheme" parseColorScheme with
  | some w, some h, some cs => some ⟨w, h, cs⟩
  | _, _, _ => none

/-- `LayoutSchema.parse`. -/
def parseLayout (j : Json) : Option Layout :=
  match optField j "containers" (parseAll parseContainer) with
  | some cs => some ⟨cs⟩
  | none => none

/-- `UIBlueprintSchema.parse`. -/
def parseUIBlueprint (j : Json) : Option UIBlueprint :=
  match reqField j "metadata" parseMetadata, optField j "layout" parseLayout,
        reqField j "elements" (parseAll parseUIElement) with
  | some m, some l, some es => some ⟨m, l, es⟩
  | _, _, _ => none

/-- `SceneMapSchema.parse`. -/
def parseSceneMap (j : Json) : Option SceneMap :=
  match reqField j "sceneId" parseString, reqField j "imagePath" parseString,
        reqField j "colorScheme" parseColorScheme,
        reqField j "elements" (parseAll parseUIElement),
        optField j "blueprint" parseUIBlueprint with
  | some sid, some ip, some cs, some es, some bp => some ⟨sid, ip, cs, es, bp⟩
  | _, _, _, _, _ => none

/-- The action `type` enum. -/
def parseActionType : Json → Option ActionType
  | .str "cursor_move" => some .cursor_move
  | .str "click" => some .click
  | .str "type" => some .type
  | .str "wait" => some .wait
  | .str "switch_scene" => some .switch_scene
  | _ => none

/-- `ActionSchema.parse`; `duration` takes its zod default `1.0` when absent. -/
def parseAction (j : Json) : Option Action :=
  match reqField j "type" parseActionType,
        optField j "targetElementId" parseString,
        optField j "payload" parseString,
        (match getField j "duration" with
         | none => some (1 : ℚ)
         | some v => parseNumber v) with
  | some t, some tid, some pl, some d => some ⟨t, tid, pl, d⟩
  | _, _, _, _ => none

/-- `StoryboardSchema.parse` — the validation run on any input storyboard
before playback begins. -/
def parseStoryboard (j : Json) : Option Storyboard :=
  match reqField j "scenes" (parseAll parseSceneMap),
        reqField j "actions" (parseAll parseAction) with
  | some ss, some as => some ⟨ss, as⟩
  | _, _ => none

/-! ## Timeline interpreter: shared pieces -/

/-- One logical event of a run: the action's kind, the `targetElementId` it
carried, the element/scene id it resolved to (when it did), and whether the
interpreter skipped the action.  This is the observable logical trace of a
playback run. -/
structure Event where
  kind : ActionType
  target : Option String
  resolved : Option String
  skipped : Bool
deriving DecidableEq

/-- The `findElement` helper shared by the renderer scenes: resolve a
(possibly falsy) element id against the active scene; `find` returns the
first match. -/
def findElement (scene : SceneMap) (elementId : Option String) : Option UIElement :=
  match truthy elementId with
  | none => none
  | some i => scene.elements.find? (fun e => e.id = i)

/-- The character-typing loop shared by the renderer scenes.  For the `i`-th
remaining index the text node is assigned the payload prefix of length
`i + 1`, and the interpreter suspends for
`baseDelay * (0.8 + rand idx * 0.4)` seconds — the every-third-character
cursor bob splits the same span into two halves and returns the cursor to
its starting point, so each character costs exactly its jittered delay.
One `rand` value is consumed per character.  Returns the successive text
states together with the elapsed time. -/
def typeLoopGo (rand : ℕ → ℚ) (baseDelay : ℚ) (payload : List Char) :
    List ℕ → ℕ → List (List Char) × ℚ
  | [], _ => ([], 0)
  | i :: rest, idx =>
    let charDelay := baseDelay * (4/5 + rand idx * (2/5))
    let r := typeLoopGo rand baseDelay payload rest (idx + 1)
    (payload.take (i + 1) :: r.1, charDelay + r.2)

/-- The whole typing loop: `for (let i = 0; i < text.length; i++) ...`. -/
def typeLoop (rand : ℕ → ℚ) (baseDelay : ℚ) (payload : List Char) (idx : ℕ) :
    List (List Char) × ℚ :=
  typeLoopGo rand baseDelay payload (List.range payload.length) idx

/-! ## The hybrid renderer scene

The hybrid scene layers a full-opacity screenshot `Img` under an initially
invisible extracted-assets layer (one `Img` child per element of the first
scene, keyed by the element id) and walks the action list.  It has no
`switch_scene` case, so that action kind falls through to the `default`
branch. -/

namespace HybridScene

/-- One child `Img` of the extracted-elements layer.  Each is created with
`opacity={0}` (the "fail silently" placeholder), default scale 1 and no
shadow. -/
structure AssetNode where
  pos : Vec2
  width : ℚ
  height : ℚ
  opacity : ℚ
  scale : ℚ
  shadowBlur : ℚ
  shadowColor : Option String
deriving DecidableEq

/-- The `Img` built for one element of the active scene. -/
def initNode (e : UIElement) : AssetNode :=
  ⟨getElementCanvasPosition e, e.coordinates.width, e.coordinates.height, 0, 1, 0, none⟩

/-- `getElementNode`: `children().find(child => child.key === elementId)`. -/
def getElementNode (nodes : List (String × AssetNode)) :
    Option String → Option AssetNode
  | none => none
  | some i => (nodes.find? (fun p => p.1 = i)).map (fun p => p.2)

/-- Mutate the first node whose key matches the given element id (the JS
`find` returns a reference to the first match, which is then mutated). -/
def updateNode (oid : Option String) (f : AssetNode → AssetNode) :
    List (String × AssetNode) → List (String × AssetNode)
  | [] => []
  | p :: rest =>
    match oid with
    | none => p :: rest
    | some i => if p.1 = i then (p.1, f p.2) :: rest
                else p :: updateNode (some i) f rest

/-- The mutable presentation state owned by the hybrid scene.  Wall-clock
time is not part of the state; each step returns the span it suspends for. -/
structure State where
  screenshotOpacity : ℚ
  layerOpacity : ℚ
  nodes : List (String × AssetNode)
  cursorPos : Vec2
  cursorScale : ℚ
  highlightPos : Vec2
  highlightWidth : ℚ
  highlightHeight : ℚ
  highlightOpacity : ℚ
  ripplePos : Vec2
  rippleSize : ℚ
  rippleOpacity : ℚ
  typingPos : Vec2
  typingFontSize : ℚ
  typingAlignLeft : Bool
  typingOpacity : ℚ
  typingText : List Char
  useExtractedElements : Bool
  randIdx : ℕ
  diagnostics : List String
  events : List Event
deriving DecidableEq

/-- The `cursor_move` case: highlight appears (0.3s), the one-shot
screenshot→assets crossfade fires when the layer has children and promotion
has not happened yet (1s), a glow lands on the target node after promotion
(0.3s), the cursor eases to the element center over `duration`, and the
highlight pulses (two parallel 0.2s tweens on the same property; the later
listed one wins, leaving opacity 0.4). -/
def cursorMoveStep (scene : SceneMap) (highlightColor : String)
    (s : State) (a : Action) : State × ℚ :=
  match findElement scene a.targetElementId with
  | none =>
    ({ s with
        diagnostics := s.diagnostics ++ ["Element not found: " ++ optStr a.targetElementId],
        events := s.events ++ [⟨.cursor_move, a.targetElementId, none, true⟩] }, 0)
  | some e =>
    let targetPos := getElementCanvasPosition e
    let s1 := { s with highlightPos := targetPos, highlightWidth := e.coordinates.width,
                       highlightHeight := e.coordinates.height, highlightOpacity := 3/5 }
    let pTime : ℚ := if s1.useExtractedElements = false ∧ s1.nodes ≠ [] then 1 else 0
    let s2 := if s1.useExtractedElements = false ∧ s1.nodes ≠ [] then
        { s1 with screenshotOpacity := 0, layerOpacity := 1, useExtractedElements := true }
      else s1
    let tn := getElementNode s2.nodes a.targetElementId
    let gTime : ℚ := if s2.useExtractedElements = true ∧ tn.isSome then 3/10 else 0
    let glowNodes := updateNode a.targetElementId
      (fun n => { n with shadowBlur := 8, shadowColor := some highlightColor }) s2.nodes
    let s3 := if s2.useExtractedElements = true ∧ tn.isSome then
        { s2 with nodes := glowNodes }
      else s2
    let s4 := { s3 with cursorPos := targetPos }
    let s5 := { s4 with highlightOpacity := 2/5,
                        events := s4.events ++ [⟨.cursor_move, a.targetElementId, some e.id, false⟩] }
    (s5, 3/10 + pTime + gTime + a.duration + 1/5)

/-- The `click` case.  An unresolved target breaks out silently (no
diagnostic).  Press (0.1s), target-node press after promotion (0.1s),
ripple (0.4s), release (0.15s, restoring the saved cursor position and
scale 1, and — not gated on promotion — target scale 1 / opacity 1),
highlight fade with glow removal (0.3s). -/
def clickStep (scene : SceneMap) (s : State) (a : Action) : State × ℚ :=
  match findElement scene a.targetElementId with
  | none => ({ s with events := s.events ++ [⟨.click, a.targetElementId, none, true⟩] }, 0)
  | some e =>
    let currentPos := s.cursorPos
    let tn := getElementNode s.nodes a.targetElementId
    let s1 := { s with cursorPos := ⟨currentPos.x, currentPos.y + 3⟩, cursorScale := 19/20 }
    let nTime : ℚ := if s1.useExtractedElements = true ∧ tn.isSome then 1/10 else 0
    let pressNodes := updateNode a.targetElementId
      (fun n => { n with scale := 19/20, opacity := 4/5 }) s1.nodes
    let s2 := if s1.useExtractedElements = true ∧ tn.isSome then
        { s1 with nodes := pressNodes }
      else s1
    let s3 := { s2 with ripplePos := currentPos, rippleSize := 40, rippleOpacity := 1 }
    let s4 := { s3 with rippleSize := 80, rippleOpacity := 0 }
    let releaseNodes := updateNode a.targetElementId
      (fun n => { n with scale := 1, opacity := 1 }) s4.nodes
    let s5 := { s4 with cursorPos := currentPos, cursorScale := 1,
                        nodes := if tn.isSome then releaseNodes else s4.nodes }
    let unglowNodes := updateNode a.targetElementId
      (fun n => { n with shadowBlur := 0 }) s5.nodes
    let s6 := { s5 with highlightOpacity := 0,
                        nodes := if tn.isSome then unglowNodes else s5.nodes,
                        events := s5.events ++ [⟨.click, a.targetElementId, some e.id, false⟩] }
    (s6, 1/10 + nTime + 2/5 + 3/20 + 3/10)

/-- The `type` case.  A falsy payload or an unresolved target breaks out
silently.  The text node is anchored at the left interior of the target
(`center.x - width/2 + 12`, vertically centered), focus glow lands after
promotion (0.3s), the payload is revealed character by character with
jittered per-character delays, the glow is removed (0.4s) and a settle
pause of 0.5s follows. -/
def typeStep (scene : SceneMap) (highlightColor : String) (rand : ℕ → ℚ)
    (s : State) (a : Action) : State × ℚ :=
  match truthy a.payload, findElement scene a.targetElementId with
  | some payload, some e =>
    let chars := payload.data
    let inputPos := getElementCanvasPosition e
    let textXPos := inputPos.x - e.coordinates.width / 2 + 12
    let s1 := { s with typingPos := ⟨textXPos, inputPos.y⟩,
                       typingFontSize := min 16 (e.coordinates.height / 2),
                       typingAlignLeft := true, typingOpacity := 1, typingText := [] }
    let tn := getElementNode s1.nodes a.targetElementId
    let gTime : ℚ := if s1.useExtractedElements = true ∧ tn.isSome then 3/10 else 0
    let focusNodes := updateNode a.targetElementId
      (fun n => { n with shadowBlur := 12, shadowColor := some highlightColor }) s1.nodes
    let s2 := if s1.useExtractedElements = true ∧ tn.isSome then
        { s1 with nodes := focusNodes }
      else s1
    let loop := typeLoop rand (a.duration / (chars.length : ℚ)) chars s2.randIdx
    let s3 := { s2 with typingText := chars.take chars.length,
                        randIdx := s2.randIdx + chars.length }
    let uTime : ℚ := if s3.useExtractedElements = true ∧ tn.isSome then 2/5 else 0
    let unfocusNodes := updateNode a.targetElementId
      (fun n => { n with shadowBlur := 0 }) s3.nodes
    let s4 := if s3.useExtractedElements = true ∧ tn.isSome then
        { s3 with nodes := unfocusNodes }
      else s3
    let s5 := { s4 with events := s4.events ++ [⟨.type, a.targetElementId, some e.id, false⟩] }
    (s5, gTime + loop.2 + uTime + 1/2)
  | _, _ => ({ s with events := s.events ++ [⟨.type, a.targetElementId, none, true⟩] }, 0)

/-- One action of the hybrid scene's `switch (action.type)`.  There is no
`switch_scene` case in this scene, so that kind lands in `default`, which
warns about an unknown action type. -/
def step (scene : SceneMap) (highlightColor : String) (rand : ℕ → ℚ)
    (s : State) (a : Action) : State × ℚ :=
  match a.type with
  | .cursor_move => cursorMoveStep scene highlightColor s a
  | .click => clickStep scene s a
  | .type => typeStep scene highlightColor rand s a
  | .wait => ({ s with events := s.events ++ [⟨.wait, a.targetElementId, none, false⟩] },
              a.duration)
  | .switch_scene =>
    ({ s with diagnostics := s.diagnostics ++ ["Unknown action type: switch_scene"],
              events := s.events ++ [⟨.switch_scene, a.targetElementId, none, true⟩] }, 0)

/-- `for (const action of storyboard.actions) ...` — each action runs to
completion before the next begins; the result pairs the final state with
the total elapsed time. -/
def runAll (scene : SceneMap) (highlightColor : String) (rand : ℕ → ℚ) :
    State → List Action → State × ℚ
  | s, [] => (s, 0)
  | s, a :: rest =>
    let r := step scene highlightColor rand s a
    let r2 := runAll scene highlightColor rand r.1 rest
    (r2.1, r.2 + r2.2)

/-- The view as initialized before playback: screenshot at full opacity,
asset layer invisible with one node per element, cursor parked at the
top-left corner of render space. -/
def initState (scene : SceneMap) : State where
  screenshotOpacity := 1
  layerOpacity := 0
  nodes := scene.elements.map (fun e => (e.id, initNode e))
  cursorPos := ⟨-960, -540⟩
  cursorScale := 1
  highlightPos := ⟨0, 0⟩
  highlightWidth := 0
  highlightHeight := 0
  highlightOpacity := 0
  ripplePos := ⟨0, 0⟩
  rippleSize := 40
  rippleOpacity := 0
  typingPos := ⟨0, 0⟩
  typingFontSize := 16
  typingAlignLeft := false
  typingOpacity := 0
  typingText := []
  useExtractedElements := false
  randIdx := 0
  diagnostics := []
  events := []

/-- A whole playback run of the hybrid scene: the no-scenes guard throws
before any action is processed; otherwise the action list runs and the
final frame (highlight fade 0.5s plus a 1s hold) closes the run. -/
def play (sb : Storyboard) (rand : ℕ → ℚ) : Except String (State × ℚ) :=
  match sb.scenes with
  | [] => .error "No scenes found in storyboard"
  | scene :: _ =>
    let highlightColor := jsOr scene.colorScheme.primary "#4285f4"
    let r := runAll scene highlightColor rand (initState scene) sb.actions
    .ok ({ r.1 with highlightOpacity := 0 }, r.2 + 1/2 + 1)

end HybridScene

/-! ## The master (screenshot-only) renderer scene

The master scene shows the raw screenshot and overlays cursor, highlight,
ripple and typing text.  Its local coordinate helper shifts a point by half
the canvas only — it does not add half the element size — and its `type`
case places the text 50 pixels above the current cursor position without
resolving the target element. -/

namespace MasterScene

/-- The master scene's local `toCanvasCoords`: it only recenters the origin
(`x - 960`, `y - 540`) and ignores the element's size. -/
def toCanvasCoords (x y : ℚ) : Vec2 := ⟨x - 960, y - 540⟩

/-- Cursor stroke color derived from the scene theme. -/
def themeCursorColor : Theme → String
  | .dark => "#FFFFFF"
  | .light => "#000000"

/-- The mutable presentation state owned by the master scene. -/
structure State where
  activeScene : SceneMap
  imageSrc : String
  imageOpacity : ℚ
  cursorPos : Vec2
  cursorScale : ℚ
  cursorOpacity : ℚ
  cursorStroke : String
  highlightPos : Vec2
  highlightWidth : ℚ
  highlightHeight : ℚ
  highlightOpacity : ℚ
  highlightStroke : String
  ripplePos : Vec2
  rippleSize : ℚ
  rippleOpacity : ℚ
  rippleStroke : String
  typingPos : Vec2
  typingOpacity : ℚ
  typingText : List Char
  randIdx : ℕ
  diagnostics : List String
  events : List Event
deriving DecidableEq

/-- The `cursor_move` case: highlight appears around `toCanvasCoords(x, y)`
(0.3s), the cursor eases there over `duration`, then the highlight pulses
(parallel 0.2s tweens, the later listed one leaving opacity 0.4). -/
def cursorMoveStep (s : State) (a : Action) : State × ℚ :=
  match findElement s.activeScene a.targetElementId with
  | none =>
    ({ s with
        diagnostics := s.diagnostics ++ ["Element not found: " ++ optStr a.targetElementId],
        events := s.events ++ [⟨.cursor_move, a.targetElementId, none, true⟩] }, 0)
  | some e =>
    let targetPos := toCanvasCoords e.coordinates.x e.coordinates.y
    let s1 := { s with highlightPos := targetPos, highlightWidth := e.coordinates.width,
                       highlightHeight := e.coordinates.height, highlightOpacity := 3/5 }
    let s2 := { s1 with cursorPos := targetPos }
    let s3 := { s2 with highlightOpacity := 2/5,
                        events := s2.events ++ [⟨.cursor_move, a.targetElementId, some e.id, false⟩] }
    (s3, 3/10 + a.duration + 1/5)

/-- The `click` case: press (0.1s), ripple (0.4s), release restoring the
saved position and scale 1 (0.15s), highlight fade (0.3s). -/
def clickStep (s : State) (a : Action) : State × ℚ :=
  match findElement s.activeScene a.targetElementId with
  | none =>
    ({ s with
        diagnostics := s.diagnostics ++
          ["Element not found for click: " ++ optStr a.targetElementId],
        events := s.events ++ [⟨.click, a.targetElementId, none, true⟩] }, 0)
  | some e =>
    let currentPos := s.cursorPos
    let s1 := { s with cursorPos := ⟨currentPos.x, currentPos.y + 3⟩, cursorScale := 19/20 }
    let s2 := { s1 with ripplePos := currentPos, rippleSize := 40, rippleOpacity := 1 }
    let s3 := { s2 with rippleSize := 80, rippleOpacity := 0 }
    let s4 := { s3 with cursorPos := currentPos, cursorScale := 1 }
    let s5 := { s4 with highlightOpacity := 0,
                        events := s4.events ++ [⟨.click, a.targetElementId, some e.id, false⟩] }
    (s5, 1/10 + 2/5 + 3/20 + 3/10)

/-- The `type` case: the target element is never resolved; the text is
placed 50 pixels above the current cursor position, revealed character by
character, then faded out (0.4s). -/
def typeStep (rand : ℕ → ℚ) (s : State) (a : Action) : State × ℚ :=
  match truthy a.payload with
  | none =>
    ({ s with diagnostics := s.diagnostics ++ ["No payload for type action"],
              events := s.events ++ [⟨.type, a.targetElementId, none, true⟩] }, 0)
  | some payload =>
    let chars := payload.data
    let currentPos := s.cursorPos
    let s1 := { s with typingPos := ⟨currentPos.x, currentPos.y - 50⟩,
                       typingOpacity := 1, typingText := [] }
    let loop := typeLoop rand (a.duration / (chars.length : ℚ)) chars s1.randIdx
    let s2 := { s1 with typingText := chars.take chars.length,
                        randIdx := s1.randIdx + chars.length }
    let s3 := { s2 with typingOpacity := 0,
                        events := s2.events ++ [⟨.type, a.targetElementId, none, false⟩] }
    (s3, loop.2 + 2/5)

/-- The `switch_scene` case: a missing payload or an unknown scene id warns
once and leaves everything unchanged; otherwise the scene cross-fades out
(`duration/2`), the active scene reference, image source and theme-derived
stroke colors are swapped, and the new scene fades in (`duration/2`). -/
def switchSceneStep (sb : Storyboard) (s : State) (a : Action) : State × ℚ :=
  match truthy a.payload with
  | none =>
    ({ s with diagnostics := s.diagnostics ++ ["No payload (sceneId) for switch_scene action"],
              events := s.events ++ [⟨.switch_scene, a.targetElementId, none, true⟩] }, 0)
  | some p =>
    match sb.scenes.find? (fun sc => sc.sceneId = p) with
    | none =>
      ({ s with diagnostics := s.diagnostics ++ ["Scene not found: " ++ p],
                events := s.events ++ [⟨.switch_scene, a.targetElementId, none, true⟩] }, 0)
    | some nextScene =>
      let s1 := { s with imageOpacity := 0, cursorOpacity := 0, highlightOpacity := 0 }
      let s2 := { s1 with activeScene := nextScene, imageSrc := nextScene.imagePath,
                          cursorStroke := themeCursorColor nextScene.colorScheme.theme,
                          highlightStroke := jsOr nextScene.colorScheme.primary "#4285f4",
                          rippleStroke := jsOr nextScene.colorScheme.primary "#4285f4" }
      let s3 := { s2 with imageOpacity := 1, cursorOpacity := 1,
                          events := s2.events ++ [⟨.switch_scene, a.targetElementId, some nextScene.sceneId, false⟩] }
      (s3, a.duration / 2 + a.duration / 2)

/-- One action of the master scene's `switch (action.type)`; all five kinds
are handled, so the `default` branch is unreachable for validated input. -/
def step (sb : Storyboard) (rand : ℕ → ℚ) (s : State) (a : Action) : State × ℚ :=
  match a.type with
  | .cursor_move => cursorMoveStep s a
  | .click => clickStep s a
  | .type => typeStep rand s a
  | .wait => ({ s with events := s.events ++ [⟨.wait, a.targetElementId, none, false⟩] },
              a.duration)
  | .switch_scene => switchSceneStep sb s a

/-- The master scene's action loop. -/
def runAll (sb : Storyboard) (rand : ℕ → ℚ) : State → List Action → State × ℚ
  | s, [] => (s, 0)
  | s, a :: rest =>
    let r := step sb rand s a
    let r2 := runAll sb rand r.1 rest
    (r2.1, r.2 + r2.2)

/-- The view as initialized from the first scene. -/
def initState (scene : SceneMap) : State where
  activeScene := scene
  imageSrc := scene.imagePath
  imageOpacity := 1
  cursorPos := ⟨-960, -540⟩
  cursorScale := 1
  cursorOpacity := 1
  cursorStroke := themeCursorColor scene.colorScheme.theme
  highlightPos := ⟨0, 0⟩
  highlightWidth := 0
  highlightHeight := 0
  highlightOpacity := 0
  highlightStroke := jsOr scene.colorScheme.primary "#4285f4"
  ripplePos := ⟨0, 0⟩
  rippleSize := 40
  rippleOpacity := 0
  rippleStroke := jsOr scene.colorScheme.primary "#4285f4"
  typingPos := ⟨0, 0⟩
  typingOpacity := 0
  typingText := []
  randIdx := 0
  diagnostics := []
  events := []

/-- A whole playback run of the master scene. -/
def play (sb : Storyboard) (rand : ℕ → ℚ) : Except String (State × ℚ) :=
  match sb.scenes with
  | [] => .error "No scenes found in storyboard"
  | scene :: _ =>
    let r := runAll sb rand (initState scene) sb.actions
    .ok ({ r.1 with highlightOpacity := 0 }, r.2 + 1/2 + 1)

end MasterScene

/-! ## The canvas (fully-reconstructed) renderer scene
(src/render/CanvasScene.tsx)

The canvas scene rebuilds the UI from the elements via
`createEnhancedUIElement` (one node per element, keyed by the element id,
positioned at `getElementCanvasPosition`) and walks the action list; all
five action kinds are handled. -/

namespace CanvasScene

/-- One reconstructed UI node inside `uiContainer`, restricted to the
properties the action loop mutates plus its initial values from
`createEnhancedUIElement`: icons and images render at opacity 0.8, logo
placeholders at 0.3, everything else at the default 1; buttons carry an
initial shadow blur of 4. -/
structure UINode where
  pos : Vec2
  opacity : ℚ
  scale : ℚ
  shadowBlur : ℚ
  shadowColor : Option String
deriving DecidableEq

/-- The node built by `createEnhancedUIElement` for one element. -/
def initNode (e : UIElement) : UINode where
  pos := getElementCanvasPosition e
  opacity :=
    match e.type with
    | .icon => 4/5
    | .image => 4/5
    | .logo => 3/10
    | _ => 1
  scale := 1
  shadowBlur := match e.type with | .button => 4 | _ => 0
  shadowColor := match e.type with | .button => some "rgba(0,0,0,0.2)" | _ => none

/-- The mutable presentation state owned by the canvas scene. -/
structure State where
  activeScene : SceneMap
  containerOpacity : ℚ
  nodes : List (String × UINode)
  cursorPos : Vec2
  cursorScale : ℚ
  cursorOpacity : ℚ
  cursorStroke : String
  highlightPos : Vec2
  highlightWidth : ℚ
  highlightHeight : ℚ
  highlightOpacity : ℚ
  highlightStroke : String
  ripplePos : Vec2
  rippleSize : ℚ
  rippleOpacity : ℚ
  rippleStroke : String
  typingPos : Vec2
  typingFontSize : ℚ
  typingAlignLeft : Bool
  typingOpacity : ℚ
  typingText : List Char
  randIdx : ℕ
  diagnostics : List String
  events : List Event
deriving DecidableEq

/-- `getElementNode` of the canvas scene: it resolves the element first and
only then looks the keyed child up. -/
def getElementNode (s : State) (elementId : Option String) : Option UINode :=
  match findElement s.activeScene elementId with
  | none => none
  | some _ =>
    match elementId with
    | none => none
    | some i => (s.nodes.find? (fun p => p.1 = i)).map (fun p => p.2)

/-- Mutate the first node whose key matches the given element id. -/
def updateNode (oid : Option String) (f : UINode → UINode) :
    List (String × UINode) → List (String × UINode)
  | [] => []
  | p :: rest =>
    match oid with
    | none => p :: rest
    | some i => if p.1 = i then (p.1, f p.2) :: rest
                else p :: updateNode (some i) f rest

/-- The `cursor_move` case: highlight appears (0.3s), a glow lands on the
target node when one exists (0.3s, using the initial scene's highlight
color constant), the cursor eases to the element center over `duration`,
then the highlight pulses (0.2s, later tween leaving opacity 0.4). -/
def cursorMoveStep (highlightColor : String) (s : State) (a : Action) : State × ℚ :=
  match findElement s.activeScene a.targetElementId with
  | none =>
    ({ s with
        diagnostics := s.diagnostics ++ ["Element not found: " ++ optStr a.targetElementId],
        events := s.events ++ [⟨.cursor_move, a.targetElementId, none, true⟩] }, 0)
  | some e =>
    let targetPos := getElementCanvasPosition e
    let s1 := { s with highlightPos := targetPos, highlightWidth := e.coordinates.width,
                       highlightHeight := e.coordinates.height, highlightOpacity := 3/5 }
    let tn := getElementNode s1 a.targetElementId
    let gTime : ℚ := if tn.isSome then 3/10 else 0
    let glowNodes := updateNode a.targetElementId
      (fun n => { n with shadowBlur := 8, shadowColor := some highlightColor }) s1.nodes
    let s2 := if tn.isSome then { s1 with nodes := glowNodes } else s1
    let s3 := { s2 with cursorPos := targetPos }
    let s4 := { s3 with highlightOpacity := 2/5,
                        events := s3.events ++ [⟨.cursor_move, a.targetElementId, some e.id, false⟩] }
    (s4, 3/10 + gTime + a.duration + 1/5)

/-- The `click` case: press (0.1s), target-node press when a node exists
(0.1s), ripple (0.4s), release restoring the saved cursor position, scale 1
and target scale 1 / opacity 1 (0.15s), highlight fade with glow removal
(0.3s).  An unresolved target warns once and skips. -/
def clickStep (s : State) (a : Action) : State × ℚ :=
  match findElement s.activeScene a.targetElementId with
  | none =>
    ({ s with
        diagnostics := s.diagnostics ++
          ["Element not found for click: " ++ optStr a.targetElementId],
        events := s.events ++ [⟨.click, a.targetElementId, none, true⟩] }, 0)
  | some e =>
    let currentPos := s.cursorPos
    let tn := getElementNode s a.targetElementId
    let s1 := { s with cursorPos := ⟨currentPos.x, currentPos.y + 3⟩, cursorScale := 19/20 }
    let nTime : ℚ := if tn.isSome then 1/10 else 0
    let pressNodes := updateNode a.targetElementId
      (fun n => { n with scale := 19/20, opacity := 4/5 }) s1.nodes
    let s2 := if tn.isSome then { s1 with nodes := pressNodes } else s1
    let s3 := { s2 with ripplePos := currentPos, rippleSize := 40, rippleOpacity := 1 }
    let s4 := { s3 with rippleSize := 80, rippleOpacity := 0 }
    let releaseNodes := updateNode a.targetElementId
      (fun n => { n with scale := 1, opacity := 1 }) s4.nodes
    let s5 := { s4 with cursorPos := currentPos, cursorScale := 1,
                        nodes := if tn.isSome then releaseNodes else s4.nodes }
    let unglowNodes := updateNode a.targetElementId
      (fun n => { n with shadowBlur := 0 }) s5.nodes
    let s6 := { s5 with highlightOpacity := 0,
                        nodes := if tn.isSome then unglowNodes else s5.nodes,
                        events := s5.events ++ [⟨.click, a.targetElementId, some e.id, false⟩] }
    (s6, 1/10 + nTime + 2/5 + 3/20 + 3/10)

/-- The `type` case: a falsy payload or an unresolved target warns once and
skips; otherwise the text node is anchored at the left interior of the
target element, a focus glow lands when a node exists (0.3s), the payload
is revealed with jittered per-character delays, the glow is removed (0.4s)
and a 0.5s settle pause follows. -/
def typeStep (highlightColor : String) (rand : ℕ → ℚ)
    (s : State) (a : Action) : State × ℚ :=
  match truthy a.payload with
  | none =>
    ({ s with diagnostics := s.diagnostics ++ ["No payload for type action"],
              events := s.events ++ [⟨.type, a.targetElementId, none, true⟩] }, 0)
  | some payload =>
    match findElement s.activeScene a.targetElementId with
    | none =>
      ({ s with
          diagnostics := s.diagnostics ++
            ["Target element not found for typing: " ++ optStr a.targetElementId],
          events := s.events ++ [⟨.type, a.targetElementId, none, true⟩] }, 0)
    | some e =>
      let chars := payload.data
      let inputPos := getElementCanvasPosition e
      let textXPos := inputPos.x - e.coordinates.width / 2 + 12
      let s1 := { s with typingPos := ⟨textXPos, inputPos.y⟩,
                         typingFontSize := min 16 (e.coordinates.height / 2),
                         typingAlignLeft := true, typingOpacity := 1, typingText := [] }
      let tn := getElementNode s1 a.targetElementId
      let gTime : ℚ := if tn.isSome then 3/10 else 0
      let focusNodes := updateNode a.targetElementId
        (fun n => { n with shadowBlur := 12, shadowColor := some highlightColor }) s1.nodes
      let s2 := if tn.isSome then { s1 with nodes := focusNodes } else s1
      let loop := typeLoop rand (a.duration / (chars.length : ℚ)) chars s2.randIdx
      let s3 := { s2 with typingText := chars.take chars.length,
                          randIdx := s2.randIdx + chars.length }
      let uTime : ℚ := if tn.isSome then 2/5 else 0
      let unfocusNodes := updateNode a.targetElementId
        (fun n => { n with shadowBlur := 0 }) s3.nodes
      let s4 := if tn.isSome then { s3 with nodes := unfocusNodes } else s3
      let s5 := { s4 with events := s4.events ++ [⟨.type, a.targetElementId, some e.id, false⟩] }
      (s5, gTime + loop.2 + uTime + 1/2)

/-- The `switch_scene` case: a missing payload or an unknown scene id warns
once and leaves everything unchanged; otherwise the container cross-fades
out (`duration/2`), the children are rebuilt from the new scene, the
active-scene reference and stroke colors are swapped, and the container
fades back in (`duration/2`). -/
def switchSceneStep (sb : Storyboard) (s : State) (a : Action) : State × ℚ :=
  match truthy a.payload with
  | none =>
    ({ s with diagnostics := s.diagnostics ++ ["No payload (sceneId) for switch_scene action"],
              events := s.events ++ [⟨.switch_scene, a.targetElementId, none, true⟩] }, 0)
  | some p =>
    match sb.scenes.find? (fun sc => sc.sceneId = p) with
    | none =>
      ({ s with diagnostics := s.diagnostics ++ ["Scene not found: " ++ p],
                events := s.events ++ [⟨.switch_scene, a.targetElementId, none, true⟩] }, 0)
    | some nextScene =>
      let s1 := { s with containerOpacity := 0, cursorOpacity := 0, highlightOpacity := 0 }
      let newNodes : List (String × UINode) :=
        nextScene.elements.map (fun e => (e.id, initNode e))
      let s2 := { s1 with activeScene := nextScene,
                          nodes := newNodes,
                          cursorStroke := MasterScene.themeCursorColor nextScene.colorScheme.theme,
                          highlightStroke := jsOr nextScene.colorScheme.primary "#4285f4",
                          rippleStroke := jsOr nextScene.colorScheme.primary "#4285f4" }
      let s3 := { s2 with containerOpacity := 1, cursorOpacity := 1,
                          events := s2.events ++ [⟨.switch_scene, a.targetElementId, some nextScene.sceneId, false⟩] }
      (s3, a.duration / 2 + a.duration / 2)

/-- One action of the canvas scene's `switch (action.type)`. -/
def step (sb : Storyboard) (highlightColor : String) (rand : ℕ → ℚ)
    (s : State) (a : Action) : State × ℚ :=
  match a.type with
  | .cursor_move => cursorMoveStep highlightColor s a
  | .click => clickStep s a
  | .type => typeStep highlightColor rand s a
  | .wait => ({ s with events := s.events ++ [⟨.wait, a.targetElementId, none, false⟩] },
              a.duration)
  | .switch_scene => switchSceneStep sb s a

/-- The canvas scene's action loop. -/
def runAll (sb : Storyboard) (highlightColor : String) (rand : ℕ → ℚ) :
    State → List Action → State × ℚ
  | s, [] => (s, 0)
  | s, a :: rest =>
    let r := step sb highlightColor rand s a
    let r2 := runAll sb highlightColor rand r.1 rest
    (r2.1, r.2 + r2.2)

/-- The view as initialized from the first scene. -/
def initState (scene : SceneMap) : State where
  activeScene := scene
  containerOpacity := 1
  nodes := scene.elements.map (fun e => (e.id, initNode e))
  cursorPos := ⟨-960, -540⟩
  cursorScale := 1
  cursorOpacity := 1
  cursorStroke := MasterScene.themeCursorColor scene.colorScheme.theme
  highlightPos := ⟨0, 0⟩
  highlightWidth := 0
  highlightHeight := 0
  highlightOpacity := 0
  highlightStroke := jsOr scene.colorScheme.primary "#4285f4"
  ripplePos := ⟨0, 0⟩
  rippleSize := 40
  rippleOpacity := 0
  rippleStroke := jsOr scene.colorScheme.primary "#4285f4"
  typingPos := ⟨0, 0⟩
  typingFontSize := 16
  typingAlignLeft := false
  typingOpacity := 0
  typingText := []
  randIdx := 0
  diagnostics := []
  events := []

/-- A whole playback run of the canvas scene. -/
def play (sb : Storyboard) (rand : ℕ → ℚ) : Except String (State × ℚ) :=
  match sb.scenes with
  | [] => .error "No scenes found in storyboard"
  | scene :: _ =>
    let highlightColor := jsOr scene.colorScheme.primary "#4285f4"
    let r := runAll sb highlightColor rand (initState scene) sb.actions
    .ok ({ r.1 with highlightOpacity := 0 }, r.2 + 1/2 + 1)

end CanvasScene

/-! ## Reference-resolution predicate and concrete fixtures -/

/-- Whether some action carries a `targetElementId` that resolves to no
element id in the supplied scenes (the referential condition the spec
ascribes to validation time). -/
def hasUnresolvedTarget (sb : Storyboard) : Bool :=
  sb.actions.any (fun a =>
    match a.targetElementId with
    | none => false
    | some t => !(sb.scenes.any (fun sc => sc.elements.any (fun e => e.id = t))))

/-- A minimal structurally-valid element as a JSON document. -/
def mkElemJson (i : String) : Json :=
  .obj [("id", .str i), ("type", .str "input"), ("description", .str "element"),
        ("coordinates", .obj [("x", .num 0), ("y", .num 0),
                              ("width", .num 10), ("height", .num 10)])]

/-- The typed element `mkElemJson i` parses to. -/
def mkElem (i : String) : UIElement :=
  ⟨i, .input, "element", ⟨0, 0, 10, 10⟩, none, none, none, none⟩

/-- A one-scene JSON scene map holding elements with the given ids. -/
def mkSceneJson (ids : List String) : Json :=
  .obj [("sceneId", .str "scene1"), ("imagePath", .str "shot.png"),
        ("colorScheme", .obj [("primary", .str "#4285f4"), ("background", .str "#ffffff"),
                              ("accent", .str "#4285f4"), ("theme", .str "light")]),
        ("elements", .arr (ids.map mkElemJson))]

/-- The typed scene map `mkSceneJson ids` parses to. -/
def mkScene (ids : List String) : SceneMap :=
  ⟨"scene1", "shot.png", ⟨"#4285f4", "#ffffff", "#4285f4", .light⟩, ids.map mkElem, none⟩

/-- A structurally-valid storyboard JSON document whose single action is a
`cursor_move` to `target` — `target` may or may not occur among `ids`. -/
def mkStoryboardJson (ids : List String) (target : String) : Json :=
  .obj [("scenes", .arr [mkSceneJson ids]),
        ("actions", .arr [.obj [("type", .str "cursor_move"),
                                ("targetElementId", .str target), ("duration", .num 1)]])]

/-- The typed storyboard `mkStoryboardJson ids target` parses to. -/
def mkStoryboard (ids : List String) (target : String) : Storyboard :=
  ⟨[mkScene ids], [⟨.cursor_move, some target, none, 1⟩]⟩

/-- A fixed jitter stream for concrete runs. -/
def demoRand : ℕ → ℚ := fun _ => 1/2

/-- The Google-screenshot color scheme of the spec's end-to-end scenario. -/
def demoScheme : ColorScheme := ⟨"#4285f4", "#ffffff", "#4285f4", .light⟩

/-- The `search_input` element of the spec's end-to-end scenario:
`{x:745, y:390, w:600, h:40}`. -/
def demoElement : UIElement :=
  ⟨"search_input", .input, "Search input", ⟨745, 390, 600, 40⟩, none, none, none, none⟩

/-- A one-scene scene map around `demoElement`. -/
def demoScene : SceneMap := ⟨"scene1", "screenshot.png", demoScheme, [demoElement], none⟩

/-- A `cursor_move` to an id absent from `demoScene`. -/
def ghostMove : Action := ⟨.cursor_move, some "ghost", none, 1⟩

/-- A `click` on an id absent from `demoScene`. -/
def ghostClick : Action := ⟨.click, some "ghost", none, 1/5⟩

/-- A `type` into an id absent from `demoScene`. -/
def ghostType : Action := ⟨.type, some "ghost", some "hi", 1⟩

/-- A `switch_scene` to a scene id absent from the storyboard. -/
def ghostSwitch : Action := ⟨.switch_scene, none, some "nowhere", 1⟩

/-- A `type` of `"hi"` into the demo element over 2 seconds. -/
def demoType : Action := ⟨.type, some "search_input", some "hi", 2⟩

/-- A `cursor_move` to the demo element over 1 second. -/
def demoMove : Action := ⟨.cursor_move, some "search_input", none, 1⟩

/-- A `click` on the demo element. -/
def demoClick : Action := ⟨.click, some "search_input", none, 1/5⟩

/-- A one-scene storyboard around `demoScene` with no actions. -/
def demoSb : Storyboard := ⟨[demoScene], []⟩

/-! # Theorems -/

/-- C10 (confirmed): for every storyboard that passes `StoryboardSchema.parse`
but whose scenes array is empty, each of the three renderer scenes throws
`No scenes found in storyboard` when playback starts — the guard sits before
the action loop, so no action is processed and the run aborts with the
exception instead of degrading. -/
theorem c10_no_scenes_guard (j : Json) (sb : Storyboard) (rand : ℕ → ℚ)
    (hparse : parseStoryboard j = some sb) (hempty : sb.scenes = []) :
    HybridScene.play sb rand = .error "No scenes found in storyboard" ∧
    MasterScene.play sb rand = .error "No scenes found in storyboard" ∧
    CanvasScene.play sb rand = .error "No scenes found in storyboard" := by
  obtain ⟨ss, as⟩ := sb
  simp only at hempty
  subst hempty
  exact ⟨rfl, rfl, rfl⟩

/-- C10 witness: the empty storyboard passes validation, has no scenes, and
every renderer errors out on it. -/
theorem c10_witness :
    parseStoryboard (Json.obj [("scenes", Json.arr []), ("actions", Json.arr [])]) =
      some ⟨[], []⟩ ∧
    (Storyboard.mk [] []).scenes = [] ∧
    (HybridScene.play ⟨[], []⟩ demoRand = .error "No scenes found in storyboard" ∧
     MasterScene.play ⟨[], []⟩ demoRand = .error "No scenes found in storyboard" ∧
     CanvasScene.play ⟨[], []⟩ demoRand = .error "No scenes found in storyboard") :=
  ⟨rfl, rfl,
   c10_no_scenes_guard (Json.obj [("scenes", Json.arr []), ("actions", Json.arr [])])
     ⟨[], []⟩ demoRand rfl rfl⟩

/-- C1 (counterexample): in the master renderer, a `cursor_move` to the
spec's `search_input` element `{x:745, y:390, w:600, h:40}` leaves the
cursor at `(745-960, 390-540) = (-215,-150)` — the scene's own two-argument
conversion — while the element-center conversion `toRenderSpace` gives
`(85,-130)`; the claimed equality fails, and the cursor target uses a
different conversion than `getElementCanvasPosition`. -/
theorem c1_counterexample :
    (MasterScene.play ⟨[demoScene], [⟨.cursor_move, some "search_input", none, 1⟩]⟩
        demoRand).toOption.map (fun r => r.1.cursorPos) = some ⟨-215, -150⟩ ∧
    getElementCanvasPosition demoElement = ⟨85, -130⟩ ∧
    Vec2.mk (-215) (-150) ≠ ⟨85, -130⟩ :=
  ⟨by with_unfolding_all rfl, by with_unfolding_all rfl, by simp [Vec2.mk.injEq]⟩

/-- C1 (corrected): in the hybrid and canvas renderers every resolved
`cursor_move` ends with the cursor exactly at the element-center conversion
`getElementCanvasPosition` — regardless of the starting state — and the
highlight box is placed by the same conversion with the element's size; the
master renderer instead converts the element's top-left corner (see the
counterexample). -/
theorem c1_center_conversion
    (scene : SceneMap) (hl : String) (rand : ℕ → ℚ) (sb : Storyboard)
    (s : HybridScene.State) (t : CanvasScene.State) (a : Action) (e u : UIElement)
    (hk : a.type = .cursor_move)
    (hh : findElement scene a.targetElementId = some e)
    (hc : findElement t.activeScene a.targetElementId = some u) :
    ((HybridScene.step scene hl rand s a).1.cursorPos = getElementCanvasPosition e ∧
     (HybridScene.step scene hl rand s a).1.highlightPos = getElementCanvasPosition e ∧
     (HybridScene.step scene hl rand s a).1.highlightWidth = e.coordinates.width ∧
     (HybridScene.step scene hl rand s a).1.highlightHeight = e.coordinates.height) ∧
    ((CanvasScene.step sb hl rand t a).1.cursorPos = getElementCanvasPosition u ∧
     (CanvasScene.step sb hl rand t a).1.highlightPos = getElementCanvasPosition u ∧
     (CanvasScene.step sb hl rand t a).1.highlightWidth = u.coordinates.width ∧
     (CanvasScene.step sb hl rand t a).1.highlightHeight = u.coordinates.height) := by
  obtain ⟨ty, tid, pl, d⟩ := a
  cases hk
  refine ⟨⟨?_, ?_, ?_, ?_⟩, ⟨?_, ?_, ?_, ?_⟩⟩ <;>
    simp only [HybridScene.step, HybridScene.cursorMoveStep,
               CanvasScene.step, CanvasScene.cursorMoveStep, hh, hc] <;>
    (try rfl) <;> (try trivial) <;> (split <;> (try split) <;> rfl)

/-- C1 witness: the amended statement applied to the demo scene. -/
theorem c1_witness :
    ((Action.mk .cursor_move (some "search_input") none 1).type = .cursor_move ∧
     findElement demoScene (some "search_input") = some demoElement ∧
     findElement (CanvasScene.initState demoScene).activeScene (some "search_input") =
       some demoElement) ∧
    (((HybridScene.step demoScene "#4285f4" demoRand (HybridScene.initState demoScene)
        ⟨.cursor_move, some "search_input", none, 1⟩).1.cursorPos =
          getElementCanvasPosition demoElement ∧
      (HybridScene.step demoScene "#4285f4" demoRand (HybridScene.initState demoScene)
        ⟨.cursor_move, some "search_input", none, 1⟩).1.highlightPos =
          getElementCanvasPosition demoElement ∧
      (HybridScene.step demoScene "#4285f4" demoRand (HybridScene.initState demoScene)
        ⟨.cursor_move, some "search_input", none, 1⟩).1.highlightWidth =
          demoElement.coordinates.width ∧
      (HybridScene.step demoScene "#4285f4" demoRand (HybridScene.initState demoScene)
        ⟨.cursor_move, some "search_input", none, 1⟩).1.highlightHeight =
          demoElement.coordinates.height) ∧
     ((CanvasScene.step ⟨[demoScene], []⟩ "#4285f4" demoRand (CanvasScene.initState demoScene)
        ⟨.cursor_move, some "search_input", none, 1⟩).1.cursorPos =
          getElementCanvasPosition demoElement ∧
      (CanvasScene.step ⟨[demoScene], []⟩ "#4285f4" demoRand (CanvasScene.initState demoScene)
        ⟨.cursor_move, some "search_input", none, 1⟩).1.highlightPos =
          getElementCanvasPosition demoElement ∧
      (CanvasScene.step ⟨[demoScene], []⟩ "#4285f4" demoRand (CanvasScene.initState demoScene)
        ⟨.cursor_move, some "search_input", none, 1⟩).1.highlightWidth =
          demoElement.coordinates.width ∧
      (CanvasScene.step ⟨[demoScene], []⟩ "#4285f4" demoRand (CanvasScene.initState demoScene)
        ⟨.cursor_move, some "search_input", none, 1⟩).1.highlightHeight =
          demoElement.coordinates.height)) :=
  ⟨⟨rfl, by with_unfolding_all rfl, by with_unfolding_all rfl⟩,
   c1_center_conversion demoScene "#4285f4" demoRand ⟨[demoScene], []⟩
     (HybridScene.initState demoScene) (CanvasScene.initState demoScene)
     ⟨.cursor_move, some "search_input", none, 1⟩ demoElement demoElement
     rfl (by with_unfolding_all rfl) (by with_unfolding_all rfl)⟩

/-- C6 (counterexample): in the master renderer, after a `cursor_move` to
the spec's `search_input` element a `type` action anchors the text node at
`(-215, -200)` — 50 pixels above the cursor — which lies strictly above the
element's top edge (render-space `390 - 540 = -150`) and differs from the
left-interior anchor `(-203, -130)` the claim requires. -/
theorem c6_counterexample :
    (MasterScene.play ⟨[demoScene],
        [⟨.cursor_move, some "search_input", none, 1⟩,
         ⟨.type, some "search_input", some "hi", 1⟩]⟩ demoRand).toOption.map
      (fun r => r.1.typingPos) = some ⟨-215, -200⟩ ∧
    Vec2.mk ((getElementCanvasPosition demoElement).x - demoElement.coordinates.width / 2 + 12)
      (getElementCanvasPosition demoElement).y = ⟨-203, -130⟩ ∧
    ((-200 : ℚ) < demoElement.coordinates.y - 540) ∧
    Vec2.mk (-215) (-200) ≠ ⟨-203, -130⟩ :=
  ⟨by with_unfolding_all rfl, by with_unfolding_all rfl,
   by simp only [demoElement]; norm_num, by simp [Vec2.mk.injEq]⟩

/-- C6 (corrected): in the hybrid and canvas renderers a resolved `type`
action anchors the text node at the left interior of the target — x equal
to the element's render-space center minus half its width plus the fixed
12-pixel padding, y equal to the render-space center — and (for elements of
non-negative height) never above the element's top edge.  The master
renderer instead places the text 50 pixels above the cursor (see the
counterexample). -/
theorem c6_left_interior_anchor
    (scene : SceneMap) (hl : String) (rand : ℕ → ℚ) (sb : Storyboard)
    (s : HybridScene.State) (t : CanvasScene.State) (a : Action) (pl : String)
    (e u : UIElement)
    (hk : a.type = .type) (hp : truthy a.payload = some pl)
    (hh : findElement scene a.targetElementId = some e)
    (hc : findElement t.activeScene a.targetElementId = some u)
    (hhe : 0 ≤ e.coordinates.height) (hhu : 0 ≤ u.coordinates.height) :
    ((HybridScene.step scene hl rand s a).1.typingPos =
        ⟨(getElementCanvasPosition e).x - e.coordinates.width / 2 + 12,
         (getElementCanvasPosition e).y⟩ ∧
     e.coordinates.y - 540 ≤ (HybridScene.step scene hl rand s a).1.typingPos.y) ∧
    ((CanvasScene.step sb hl rand t a).1.typingPos =
        ⟨(getElementCanvasPosition u).x - u.coordinates.width / 2 + 12,
         (getElementCanvasPosition u).y⟩ ∧
     u.coordinates.y - 540 ≤ (CanvasScene.step sb hl rand t a).1.typingPos.y) := by
  obtain ⟨ty, tid, pl0, d⟩ := a
  cases hk
  constructor
  · have heq : (HybridScene.step scene hl rand s ⟨.type, tid, pl0, d⟩).1.typingPos =
        Vec2.mk ((getElementCanvasPosition e).x - e.coordinates.width / 2 + 12)
          (getElementCanvasPosition e).y := by
      simp only [HybridScene.step, HybridScene.typeStep, hp, hh]
      (try rfl); (split <;> (try split) <;> rfl)
    refine ⟨heq, ?_⟩
    rw [heq]
    simp only [getElementCanvasPosition, toCanvasCoords]
    linarith
  · have heq : (CanvasScene.step sb hl rand t ⟨.type, tid, pl0, d⟩).1.typingPos =
        Vec2.mk ((getElementCanvasPosition u).x - u.coordinates.width / 2 + 12)
          (getElementCanvasPosition u).y := by
      simp only [CanvasScene.step, CanvasScene.typeStep, hp, hc]
      (try rfl); (split <;> (try split) <;> rfl)
    refine ⟨heq, ?_⟩
    rw [heq]
    simp only [getElementCanvasPosition, toCanvasCoords]
    linarith

/-- C6 witness: the amended statement applied to the demo scene's
`search_input` with payload `"hi"`. -/
theorem c6_witness :
    ((Action.mk .type (some "search_input") (some "hi") 1).type = .type ∧
     truthy (some "hi") = some "hi" ∧
     findElement demoScene (some "search_input") = some demoElement ∧
     findElement (CanvasScene.initState demoScene).activeScene (some "search_input") =
       some demoElement ∧
     (0 : ℚ) ≤ demoElement.coordinates.height) ∧
    (((HybridScene.step demoScene "#4285f4" demoRand (HybridScene.initState demoScene)
        ⟨.type, some "search_input", some "hi", 1⟩).1.typingPos =
          ⟨(getElementCanvasPosition demoElement).x - demoElement.coordinates.width / 2 + 12,
           (getElementCanvasPosition demoElement).y⟩ ∧
      demoElement.coordinates.y - 540 ≤
        (HybridScene.step demoScene "#4285f4" demoRand (HybridScene.initState demoScene)
          ⟨.type, some "search_input", some "hi", 1⟩).1.typingPos.y) ∧
     ((CanvasScene.step ⟨[demoScene], []⟩ "#4285f4" demoRand (CanvasScene.initState demoScene)
        ⟨.type, some "search_input", some "hi", 1⟩).1.typingPos =
          ⟨(getElementCanvasPosition demoElement).x - demoElement.coordinates.width / 2 + 12,
           (getElementCanvasPosition demoElement).y⟩ ∧
      demoElement.coordinates.y - 540 ≤
        (CanvasScene.step ⟨[demoScene], []⟩ "#4285f4" demoRand (CanvasScene.initState demoScene)
          ⟨.type, some "search_input", some "hi", 1⟩).1.typingPos.y)) :=
  ⟨⟨rfl, rfl, by with_unfolding_all rfl, by with_unfolding_all rfl, by norm_num [demoElement]⟩,
   c6_left_interior_anchor demoScene "#4285f4" demoRand ⟨[demoScene], []⟩
     (HybridScene.initState demoScene) (CanvasScene.initState demoScene)
     ⟨.type, some "search_input", some "hi", 1⟩ "hi" demoElement demoElement
     rfl rfl (by with_unfolding_all rfl) (by with_unfolding_all rfl)
     (by norm_num [demoElement]) (by norm_num [demoElement])⟩

/-- A minimal element document parses to its typed form. -/
theorem parseUIElement_mkElemJson (i : String) :
    parseUIElement (mkElemJson i) = some (mkElem i) := rfl

/-- Element arrays parse elementwise. -/
theorem parseAll_mkElemJson (ids : List String) :
    parseAll.go parseUIElement (ids.map mkElemJson) = some (ids.map mkElem) := by
  induction ids with
  | nil => rfl
  | cons i rest ih => simp [List.map, parseAll.go, parseUIElement_mkElemJson, ih]

/-- A scene document parses regardless of which element ids it holds. -/
theorem parseSceneMap_mkSceneJson (ids : List String) :
    parseSceneMap (mkSceneJson ids) = some (mkScene ids) := by
  simp [parseSceneMap, mkSceneJson, mkScene, reqField, optField, getField,
        parseString, parseAll, parseAll.go, parseColorScheme, parseColorScheme.parseTheme,
        parseAll_mkElemJson]

/-- C2 (corrected): storyboard validation is purely structural.  For every
list of element ids and every target string — resolvable or not —
`StoryboardSchema.parse` accepts the storyboard whose single `cursor_move`
action targets that string; no cross-reference between `targetElementId`
(or a `switch_scene` payload) and the scenes is checked at validation time,
so referentially broken storyboards do reach the interpreter, which handles
them at execution time as resolution misses. -/
theorem c2_structural_validation (ids : List String) (target : String) :
    parseStoryboard (mkStoryboardJson ids target) = some (mkStoryboard ids target) := by
  simp [parseStoryboard, mkStoryboardJson, mkStoryboard, reqField, getField,
        parseAll, parseAll.go, parseSceneMap_mkSceneJson, parseAction, optField,
        parseActionType, parseString, parseNumber]

/-- C2 (counterexample): a storyboard whose only action targets the id
`ghost`, which resolves to no element in its scenes, passes
`StoryboardSchema.parse` — validation does not fail on it, contradicting
the claim that such input never reaches the interpreter. -/
theorem c2_counterexample :
    parseStoryboard (mkStoryboardJson ["search_input"] "ghost") =
      some (mkStoryboard ["search_input"] "ghost") ∧
    hasUnresolvedTarget (mkStoryboard ["search_input"] "ghost") = true := ⟨rfl, rfl⟩

/-- C3 (counterexample): the hybrid renderer's `click` with an unresolved
target breaks out silently — zero diagnostics, not the exactly-one the
claim requires — although the action is skipped and the run completes. -/
theorem c3_counterexample :
    findElement demoScene (some "ghost") = none ∧
    (HybridScene.play ⟨[demoScene], [ghostClick]⟩ demoRand).toOption.map
      (fun r => r.1.diagnostics) = some [] ∧
    (HybridScene.play ⟨[demoScene], [ghostClick]⟩ demoRand).toOption.map
      (fun r => r.1.events) = some [⟨.click, some "ghost", none, true⟩] :=
  ⟨by with_unfolding_all rfl, by with_unfolding_all rfl, by with_unfolding_all rfl⟩

/-- C3 (corrected): a resolution miss never mutates the presentation state
and never aborts — the step is total and the run continues with the next
action — but the diagnostics differ by renderer: `cursor_move` misses warn
once everywhere, and the master and canvas renderers warn once for `click`
(and canvas for `type`), while the hybrid renderer skips `click` and `type`
misses silently; the master renderer's `type` does not resolve a target at
all and types at the cursor regardless. -/
theorem c3_resolution_miss_policy :
    (∀ (scene : SceneMap) (hl : String) (rand : ℕ → ℚ) (s : HybridScene.State) (a : Action),
      a.type = .cursor_move → findElement scene a.targetElementId = none →
      HybridScene.step scene hl rand s a =
        ({ s with
            diagnostics := s.diagnostics ++ ["Element not found: " ++ optStr a.targetElementId],
            events := s.events ++ [⟨.cursor_move, a.targetElementId, none, true⟩] }, 0)) ∧
    (∀ (scene : SceneMap) (hl : String) (rand : ℕ → ℚ) (s : HybridScene.State) (a : Action),
      a.type = .click → findElement scene a.targetElementId = none →
      HybridScene.step scene hl rand s a =
        ({ s with events := s.events ++ [⟨.click, a.targetElementId, none, true⟩] }, 0)) ∧
    (∀ (scene : SceneMap) (hl : String) (rand : ℕ → ℚ) (s : HybridScene.State) (a : Action),
      a.type = .type → findElement scene a.targetElementId = none →
      HybridScene.step scene hl rand s a =
        ({ s with events := s.events ++ [⟨.type, a.targetElementId, none, true⟩] }, 0)) ∧
    (∀ (sb : Storyboard) (rand : ℕ → ℚ) (s : MasterScene.State) (a : Action),
      a.type = .cursor_move → findElement s.activeScene a.targetElementId = none →
      MasterScene.step sb rand s a =
        ({ s with
            diagnostics := s.diagnostics ++ ["Element not found: " ++ optStr a.targetElementId],
            events := s.events ++ [⟨.cursor_move, a.targetElementId, none, true⟩] }, 0)) ∧
    (∀ (sb : Storyboard) (rand : ℕ → ℚ) (s : MasterScene.State) (a : Action),
      a.type = .click → findElement s.activeScene a.targetElementId = none →
      MasterScene.step sb rand s a =
        ({ s with
            diagnostics := s.diagnostics ++
              ["Element not found for click: " ++ optStr a.targetElementId],
            events := s.events ++ [⟨.click, a.targetElementId, none, true⟩] }, 0)) ∧
    (∀ (sb : Storyboard) (rand : ℕ → ℚ) (s : MasterScene.State) (a : Action) (pl : String),
      a.type = .type → truthy a.payload = some pl →
      findElement s.activeScene a.targetElementId = none →
      (MasterScene.step sb rand s a).1.typingText = pl.data ∧
      (MasterScene.step sb rand s a).1.typingOpacity = 0) ∧
    (∀ (sb : Storyboard) (hl : String) (rand : ℕ → ℚ) (t : CanvasScene.State) (a : Action),
      a.type = .cursor_move → findElement t.activeScene a.targetElementId = none →
      CanvasScene.step sb hl rand t a =
        ({ t with
            diagnostics := t.diagnostics ++ ["Element not found: " ++ optStr a.targetElementId],
            events := t.events ++ [⟨.cursor_move, a.targetElementId, none, true⟩] }, 0)) ∧
    (∀ (sb : Storyboard) (hl : String) (rand : ℕ → ℚ) (t : CanvasScene.State) (a : Action),
      a.type = .click → findElement t.activeScene a.targetElementId = none →
      CanvasScene.step sb hl rand t a =
        ({ t with
            diagnostics := t.diagnostics ++
              ["Element not found for click: " ++ optStr a.targetElementId],
            events := t.events ++ [⟨.click, a.targetElementId, none, true⟩] }, 0)) ∧
    (∀ (sb : Storyboard) (hl : String) (rand : ℕ → ℚ) (t : CanvasScene.State) (a : Action)
       (pl : String),
      a.type = .type → truthy a.payload = some pl →
      findElement t.activeScene a.targetElementId = none →
      CanvasScene.step sb hl rand t a =
        ({ t with
            diagnostics := t.diagnostics ++
              ["Target element not found for typing: " ++ optStr a.targetElementId],
            events := t.events ++ [⟨.type, a.targetElementId, none, true⟩] }, 0)) ∧
    (∀ (scene : SceneMap) (hl : String) (rand : ℕ → ℚ) (s : HybridScene.State) (a : Action)
       (rest : List Action),
      HybridScene.runAll scene hl rand s (a :: rest) =
        ((HybridScene.runAll scene hl rand (HybridScene.step scene hl rand s a).1 rest).1,
         (HybridScene.step scene hl rand s a).2 +
           (HybridScene.runAll scene hl rand (HybridScene.step scene hl rand s a).1 rest).2)) := by
  refine ⟨?_, ?_, ?_, ?_, ?_, ?_, ?_, ?_, ?_, ?_⟩
  · intro scene hl rand s a hk hf
    obtain ⟨ty, tid, pl, d⟩ := a; cases hk
    simp [HybridScene.step, HybridScene.cursorMoveStep, hf]
  · intro scene hl rand s a hk hf
    obtain ⟨ty, tid, pl, d⟩ := a; cases hk
    simp [HybridScene.step, HybridScene.clickStep, hf]
  · intro scene hl rand s a hk hf
    obtain ⟨ty, tid, pl, d⟩ := a; cases hk
    rcases h : truthy pl with _ | q <;>
      simp [HybridScene.step, HybridScene.typeStep, h, hf]
  · intro sb rand s a hk hf
    obtain ⟨ty, tid, pl, d⟩ := a; cases hk
    simp [MasterScene.step, MasterScene.cursorMoveStep, hf]
  · intro sb rand s a hk hf
    obtain ⟨ty, tid, pl, d⟩ := a; cases hk
    simp [MasterScene.step, MasterScene.clickStep, hf]
  · intro sb rand s a pl hk hp hf
    obtain ⟨ty, tid, pl0, d⟩ := a; cases hk
    simp [MasterScene.step, MasterScene.typeStep, hp]
  · intro sb hl rand t a hk hf
    obtain ⟨ty, tid, pl, d⟩ := a; cases hk
    simp [CanvasScene.step, CanvasScene.cursorMoveStep, hf]
  · intro sb hl rand t a hk hf
    obtain ⟨ty, tid, pl, d⟩ := a; cases hk
    simp [CanvasScene.step, CanvasScene.clickStep, hf]
  · intro sb hl rand t a pl hk hp hf
    obtain ⟨ty, tid, pl0, d⟩ := a; cases hk
    simp [CanvasScene.step, CanvasScene.typeStep, hp, hf]
  · intro scene hl rand s a rest
    rfl

/-- C3 witness: the corrected statement applied to unresolved actions
against the demo scene. -/
theorem c3_witness :
    findElement demoScene (some "ghost") = none ∧
    HybridScene.step demoScene "#4285f4" demoRand (HybridScene.initState demoScene) ghostMove =
      ({ HybridScene.initState demoScene with
          diagnostics := (HybridScene.initState demoScene).diagnostics ++
            ["Element not found: " ++ optStr ghostMove.targetElementId],
          events := (HybridScene.initState demoScene).events ++
            [⟨.cursor_move, ghostMove.targetElementId, none, true⟩] }, 0) ∧
    HybridScene.step demoScene "#4285f4" demoRand (HybridScene.initState demoScene) ghostClick =
      ({ HybridScene.initState demoScene with
          events := (HybridScene.initState demoScene).events ++
            [⟨.click, ghostClick.targetElementId, none, true⟩] }, 0) ∧
    HybridScene.step demoScene "#4285f4" demoRand (HybridScene.initState demoScene) ghostType =
      ({ HybridScene.initState demoScene with
          events := (HybridScene.initState demoScene).events ++
            [⟨.type, ghostType.targetElementId, none, true⟩] }, 0) ∧
    MasterScene.step ⟨[demoScene], []⟩ demoRand (MasterScene.initState demoScene) ghostClick =
      ({ MasterScene.initState demoScene with
          diagnostics := (MasterScene.initState demoScene).diagnostics ++
            ["Element not found for click: " ++ optStr ghostClick.targetElementId],
          events := (MasterScene.initState demoScene).events ++
            [⟨.click, ghostClick.targetElementId, none, true⟩] }, 0) ∧
    (MasterScene.step ⟨[demoScene], []⟩ demoRand (MasterScene.initState demoScene)
        ghostType).1.typingText = "hi".data ∧
    CanvasScene.step ⟨[demoScene], []⟩ "#4285f4" demoRand (CanvasScene.initState demoScene)
        ghostType =
      ({ CanvasScene.initState demoScene with
          diagnostics := (CanvasScene.initState demoScene).diagnostics ++
            ["Target element not found for typing: " ++ optStr ghostType.targetElementId],
          events := (CanvasScene.initState demoScene).events ++
            [⟨.type, ghostType.targetElementId, none, true⟩] }, 0) :=
  ⟨by with_unfolding_all rfl,
   c3_resolution_miss_policy.1 demoScene "#4285f4" demoRand (HybridScene.initState demoScene)
     ghostMove rfl (by with_unfolding_all rfl),
   (c3_resolution_miss_policy.2.1) demoScene "#4285f4" demoRand (HybridScene.initState demoScene)
     ghostClick rfl (by with_unfolding_all rfl),
   (c3_resolution_miss_policy.2.2.1) demoScene "#4285f4" demoRand
     (HybridScene.initState demoScene) ghostType rfl (by with_unfolding_all rfl),
   (c3_resolution_miss_policy.2.2.2.2.1) ⟨[demoScene], []⟩ demoRand
     (MasterScene.initState demoScene) ghostClick rfl (by with_unfolding_all rfl),
   ((c3_resolution_miss_policy.2.2.2.2.2.1) ⟨[demoScene], []⟩ demoRand
     (MasterScene.initState demoScene) ghostType "hi" rfl rfl (by with_unfolding_all rfl)).1,
   (c3_resolution_miss_policy.2.2.2.2.2.2.2.2.1) ⟨[demoScene], []⟩ "#4285f4" demoRand
     (CanvasScene.initState demoScene) ghostType "hi" rfl rfl (by with_unfolding_all rfl)⟩

/-- C4 (confirmed): a `switch_scene` whose payload is missing or names no
scene of the storyboard leaves the active-scene reference and the whole
presentation state unchanged, appending exactly one diagnostic, in both the
master and canvas renderers; and in the hybrid renderer — which handles no
`switch_scene` case at all — the kind falls to the `default` branch, which
skips it with exactly one unknown-action warning.  All steps are total, so
the run continues. -/
theorem c4_switch_scene_policy :
    (∀ (sb : Storyboard) (rand : ℕ → ℚ) (s : MasterScene.State) (a : Action) (p : String),
      a.type = .switch_scene → truthy a.payload = some p →
      sb.scenes.find? (fun sc => sc.sceneId = p) = none →
      MasterScene.step sb rand s a =
        ({ s with diagnostics := s.diagnostics ++ ["Scene not found: " ++ p],
                  events := s.events ++ [⟨.switch_scene, a.targetElementId, none, true⟩] }, 0)) ∧
    (∀ (sb : Storyboard) (rand : ℕ → ℚ) (s : MasterScene.State) (a : Action),
      a.type = .switch_scene → truthy a.payload = none →
      MasterScene.step sb rand s a =
        ({ s with
            diagnostics := s.diagnostics ++ ["No payload (sceneId) for switch_scene action"],
            events := s.events ++ [⟨.switch_scene, a.targetElementId, none, true⟩] }, 0)) ∧
    (∀ (sb : Storyboard) (hl : String) (rand : ℕ → ℚ) (t : CanvasScene.State) (a : Action)
       (p : String),
      a.type = .switch_scene → truthy a.payload = some p →
      sb.scenes.find? (fun sc => sc.sceneId = p) = none →
      CanvasScene.step sb hl rand t a =
        ({ t with diagnostics := t.diagnostics ++ ["Scene not found: " ++ p],
                  events := t.events ++ [⟨.switch_scene, a.targetElementId, none, true⟩] }, 0)) ∧
    (∀ (sb : Storyboard) (hl : String) (rand : ℕ → ℚ) (t : CanvasScene.State) (a : Action),
      a.type = .switch_scene → truthy a.payload = none →
      CanvasScene.step sb hl rand t a =
        ({ t with
            diagnostics := t.diagnostics ++ ["No payload (sceneId) for switch_scene action"],
            events := t.events ++ [⟨.switch_scene, a.targetElementId, none, true⟩] }, 0)) ∧
    (∀ (scene : SceneMap) (hl : String) (rand : ℕ → ℚ) (s : HybridScene.State) (a : Action),
      a.type = .switch_scene →
      HybridScene.step scene hl rand s a =
        ({ s with diagnostics := s.diagnostics ++ ["Unknown action type: switch_scene"],
                  events := s.events ++ [⟨.switch_scene, a.targetElementId, none, true⟩] }, 0)) := by
  refine ⟨?_, ?_, ?_, ?_, ?_⟩
  · intro sb rand s a p hk hp hf
    obtain ⟨ty, tid, pl, d⟩ := a; cases hk
    simp [MasterScene.step, MasterScene.switchSceneStep, hp, hf]
  · intro sb rand s a hk hp
    obtain ⟨ty, tid, pl, d⟩ := a; cases hk
    simp [MasterScene.step, MasterScene.switchSceneStep, hp]
  · intro sb hl rand t a p hk hp hf
    obtain ⟨ty, tid, pl, d⟩ := a; cases hk
    simp [CanvasScene.step, CanvasScene.switchSceneStep, hp, hf]
  · intro sb hl rand t a hk hp
    obtain ⟨ty, tid, pl, d⟩ := a; cases hk
    simp [CanvasScene.step, CanvasScene.switchSceneStep, hp]
  · intro scene hl rand s a hk
    obtain ⟨ty, tid, pl, d⟩ := a; cases hk
    rfl

/-- C4 witness: the statement applied to `switch_scene` to the unknown
scene id `nowhere` over the demo storyboard. -/
theorem c4_witness :
    truthy ghostSwitch.payload = some "nowhere" ∧
    (Storyboard.mk [demoScene] []).scenes.find? (fun sc => sc.sceneId = "nowhere") = none ∧
    MasterScene.step ⟨[demoScene], []⟩ demoRand (MasterScene.initState demoScene) ghostSwitch =
      ({ MasterScene.initState demoScene with
          diagnostics := (MasterScene.initState demoScene).diagnostics ++
            ["Scene not found: " ++ "nowhere"],
          events := (MasterScene.initState demoScene).events ++
            [⟨.switch_scene, ghostSwitch.targetElementId, none, true⟩] }, 0) ∧
    CanvasScene.step ⟨[demoScene], []⟩ "#4285f4" demoRand (CanvasScene.initState demoScene)
        ghostSwitch =
      ({ CanvasScene.initState demoScene with
          diagnostics := (CanvasScene.initState demoScene).diagnostics ++
            ["Scene not found: " ++ "nowhere"],
          events := (CanvasScene.initState demoScene).events ++
            [⟨.switch_scene, ghostSwitch.targetElementId, none, true⟩] }, 0) ∧
    HybridScene.step demoScene "#4285f4" demoRand (HybridScene.initState demoScene) ghostSwitch =
      ({ HybridScene.initState demoScene with
          diagnostics := (HybridScene.initState demoScene).diagnostics ++
            ["Unknown action type: switch_scene"],
          events := (HybridScene.initState demoScene).events ++
            [⟨.switch_scene, ghostSwitch.targetElementId, none, true⟩] }, 0) :=
  ⟨rfl, by with_unfolding_all rfl,
   c4_switch_scene_policy.1 ⟨[demoScene], []⟩ demoRand (MasterScene.initState demoScene)
     ghostSwitch "nowhere" rfl rfl (by with_unfolding_all rfl),
   (c4_switch_scene_policy.2.2.1) ⟨[demoScene], []⟩ "#4285f4" demoRand
     (CanvasScene.initState demoScene) ghostSwitch "nowhere" rfl rfl
     (by with_unfolding_all rfl),
   (c4_switch_scene_policy.2.2.2.2) demoScene "#4285f4" demoRand
     (HybridScene.initState demoScene) ghostSwitch rfl⟩


theorem typeLoopGo_states (rand : ℕ → ℚ) (baseDelay : ℚ) (payload : List Char) :
    ∀ (is : List ℕ) (idx : ℕ),
      (typeLoopGo rand baseDelay payload is idx).1 =
        is.map (fun i => payload.take (i + 1)) := by
  intro is
  induction is with
  | nil => intro idx; rfl
  | cons i rest ih => intro idx; simp [typeLoopGo, ih]

theorem typeLoopGo_elapsed_bounds (rand : ℕ → ℚ) (baseDelay : ℚ) (payload : List Char)
    (hr : ∀ i, 0 ≤ rand i ∧ rand i < 1) (hb : 0 ≤ baseDelay) :
    ∀ (is : List ℕ) (idx : ℕ),
      (is.length : ℚ) * (4/5 * baseDelay) ≤ (typeLoopGo rand baseDelay payload is idx).2 ∧
      (typeLoopGo rand baseDelay payload is idx).2 ≤ (is.length : ℚ) * (6/5 * baseDelay) := by
  intro is
  induction is with
  | nil => intro idx; simp [typeLoopGo]
  | cons i rest ih =>
    intro idx
    obtain ⟨ih1, ih2⟩ := ih (idx + 1)
    obtain ⟨hr0, hr1⟩ := hr idx
    constructor
    · simp only [typeLoopGo, List.length_cons]
      push_cast
      nlinarith [ih1]
    · simp only [typeLoopGo, List.length_cons]
      push_cast
      nlinarith [ih2]


/-- C5 (confirmed): a `type` action with non-empty payload of length `n`
and a resolved target drives the text node through exactly `n` states, the
`i`-th being the payload prefix of length `i`, ending with the full payload
(which is the text the interpreter leaves in the node); each of the `n`
per-character increments is `duration/n` scaled by an independent factor
`0.8 + 0.4 * rand i` with `rand i ∈ [0,1)`, so the total typing time lies
within `[0.8, 1.2] x duration`. -/
theorem c5_typing_prefixes_and_jitter
    (scene : SceneMap) (hl : String) (rand : ℕ → ℚ) (sb : Storyboard)
    (s : HybridScene.State) (t : CanvasScene.State) (a : Action) (pl : String)
    (e u : UIElement)
    (hne : pl.data ≠ [])
    (hr : ∀ i, 0 ≤ rand i ∧ rand i < 1)
    (hd : 0 ≤ a.duration)
    (hk : a.type = .type) (hp : truthy a.payload = some pl)
    (hh : findElement scene a.targetElementId = some e)
    (hc : findElement t.activeScene a.targetElementId = some u) :
    (typeLoop rand (a.duration / (pl.data.length : ℚ)) pl.data s.randIdx).1.length =
      pl.data.length ∧
    (∀ i, i < pl.data.length →
      (typeLoop rand (a.duration / (pl.data.length : ℚ)) pl.data s.randIdx).1.get? i =
        some (pl.data.take (i + 1))) ∧
    (typeLoop rand (a.duration / (pl.data.length : ℚ)) pl.data s.randIdx).1.get?
        (pl.data.length - 1) = some pl.data ∧
    4/5 * a.duration ≤ (typeLoop rand (a.duration / (pl.data.length : ℚ)) pl.data s.randIdx).2 ∧
    (typeLoop rand (a.duration / (pl.data.length : ℚ)) pl.data s.randIdx).2 ≤
      6/5 * a.duration ∧
    (HybridScene.step scene hl rand s a).1.typingText = pl.data ∧
    (CanvasScene.step sb hl rand t a).1.typingText = pl.data := by
  have hlen : pl.data.length ≠ 0 := fun h => hne (List.length_eq_zero.mp h)
  have hnpos : 0 < pl.data.length := Nat.pos_of_ne_zero hlen
  have hcast : (0 : ℚ) < (pl.data.length : ℚ) := by exact_mod_cast hnpos
  have hb : 0 ≤ a.duration / (pl.data.length : ℚ) := div_nonneg hd hcast.le
  have hst : (typeLoop rand (a.duration / (pl.data.length : ℚ)) pl.data s.randIdx).1 =
      (List.range pl.data.length).map (fun i => pl.data.take (i + 1)) :=
    typeLoopGo_states rand (a.duration / (pl.data.length : ℚ)) pl.data
      (List.range pl.data.length) s.randIdx
  have hget : ∀ i, i < pl.data.length →
      (typeLoop rand (a.duration / (pl.data.length : ℚ)) pl.data s.randIdx).1.get? i =
        some (pl.data.take (i + 1)) := by
    intro i hi
    rw [hst, List.get?_map, List.get?_range hi]
    rfl
  have hbounds := typeLoopGo_elapsed_bounds rand (a.duration / (pl.data.length : ℚ)) pl.data
    hr hb (List.range pl.data.length) s.randIdx
  have hne2 : ((pl.data.length : ℚ)) ≠ 0 := ne_of_gt hcast
  have key : ∀ c : ℚ, (pl.data.length : ℚ) * (c * (a.duration / (pl.data.length : ℚ))) =
      c * a.duration := by
    intro c
    rw [div_eq_mul_inv]
    calc (pl.data.length : ℚ) * (c * (a.duration * (pl.data.length : ℚ)⁻¹)) =
        c * a.duration * ((pl.data.length : ℚ) * (pl.data.length : ℚ)⁻¹) := by ring
      _ = c * a.duration * 1 := by rw [mul_inv_cancel₀ hne2]
      _ = c * a.duration := mul_one _
  have hmul : ((List.range pl.data.length).length : ℚ) *
      (4/5 * (a.duration / (pl.data.length : ℚ))) = 4/5 * a.duration := by
    rw [List.length_range]; exact key (4/5)
  have hmul2 : ((List.range pl.data.length).length : ℚ) *
      (6/5 * (a.duration / (pl.data.length : ℚ))) = 6/5 * a.duration := by
    rw [List.length_range]; exact key (6/5)
  refine ⟨?_, hget, ?_, ?_, ?_, ?_, ?_⟩
  · rw [hst]; simp
  · have hlast := hget (pl.data.length - 1) (Nat.sub_lt hnpos one_pos)
    have h2 : pl.data.length - 1 + 1 = pl.data.length := Nat.succ_pred_eq_of_pos hnpos
    rw [h2, List.take_length] at hlast
    exact hlast
  · have := hbounds.1
    rw [hmul] at this
    exact this
  · have := hbounds.2
    rw [hmul2] at this
    exact this
  · obtain ⟨ty, tid, pl0, d⟩ := a; cases hk
    simp only [HybridScene.step, HybridScene.typeStep, hp, hh]
    split <;> simp [List.take_length]
  · obtain ⟨ty, tid, pl0, d⟩ := a; cases hk
    simp only [CanvasScene.step, CanvasScene.typeStep, hp, hc]
    split <;> simp [List.take_length]


/-- C5 witness: the statement applied to typing `"hi"` over 2 seconds. -/
theorem c5_witness :
    ("hi".data ≠ [] ∧ (∀ i, 0 ≤ demoRand i ∧ demoRand i < 1) ∧ (0 : ℚ) ≤ demoType.duration ∧
     demoType.type = .type ∧ truthy demoType.payload = some "hi" ∧
     findElement demoScene demoType.targetElementId = some demoElement ∧
     findElement (CanvasScene.initState demoScene).activeScene demoType.targetElementId =
       some demoElement) ∧
    ((typeLoop demoRand (demoType.duration / ("hi".data.length : ℚ)) "hi".data
        (HybridScene.initState demoScene).randIdx).1.length = "hi".data.length ∧
     (∀ i, i < "hi".data.length →
       (typeLoop demoRand (demoType.duration / ("hi".data.length : ℚ)) "hi".data
          (HybridScene.initState demoScene).randIdx).1.get? i =
         some ("hi".data.take (i + 1))) ∧
     (typeLoop demoRand (demoType.duration / ("hi".data.length : ℚ)) "hi".data
        (HybridScene.initState demoScene).randIdx).1.get? ("hi".data.length - 1) =
       some "hi".data ∧
     4/5 * demoType.duration ≤
       (typeLoop demoRand (demoType.duration / ("hi".data.length : ℚ)) "hi".data
          (HybridScene.initState demoScene).randIdx).2 ∧
     (typeLoop demoRand (demoType.duration / ("hi".data.length : ℚ)) "hi".data
        (HybridScene.initState demoScene).randIdx).2 ≤ 6/5 * demoType.duration ∧
     (HybridScene.step demoScene "#4285f4" demoRand (HybridScene.initState demoScene)
        demoType).1.typingText = "hi".data ∧
     (CanvasScene.step ⟨[demoScene], []⟩ "#4285f4" demoRand (CanvasScene.initState demoScene)
        demoType).1.typingText = "hi".data) :=
  ⟨⟨by decide, fun i => ⟨by norm_num [demoRand], by norm_num [demoRand]⟩,
    by norm_num [demoType], rfl, rfl, by with_unfolding_all rfl, by with_unfolding_all rfl⟩,
   c5_typing_prefixes_and_jitter demoScene "#4285f4" demoRand ⟨[demoScene], []⟩
     (HybridScene.initState demoScene) (CanvasScene.initState demoScene) demoType "hi"
     demoElement demoElement (by decide)
     (fun i => ⟨by norm_num [demoRand], by norm_num [demoRand]⟩)
     (by norm_num [demoType]) rfl rfl (by with_unfolding_all rfl)
     (by with_unfolding_all rfl)⟩


theorem updateNode_keys (oid : Option String) (f : HybridScene.AssetNode → HybridScene.AssetNode) :
    ∀ l : List (String × HybridScene.AssetNode),
      (HybridScene.updateNode oid f l).map Prod.fst = l.map Prod.fst := by
  intro l
  induction l with
  | nil => cases oid <;> rfl
  | cons p rest ih =>
    cases oid with
    | none => rfl
    | some i =>
      by_cases h : p.1 = i <;> simp [HybridScene.updateNode, h, ih]

theorem findElement_mem {scene : SceneMap} {tid : Option String} {e : UIElement}
    (hf : findElement scene tid = some e) : e ∈ scene.elements := by
  unfold findElement at hf
  rcases ht : truthy tid with _ | i
  · rw [ht] at hf; exact absurd hf (by simp)
  · rw [ht] at hf; exact List.mem_of_find?_eq_some hf

theorem hybrid_step_promotion (scene : SceneMap) (hl : String) (rand : ℕ → ℚ)
    (s : HybridScene.State) (a : Action)
    (hkeys : s.nodes.map Prod.fst = scene.elements.map (fun e => e.id))
    (hso : s.screenshotOpacity = (if s.useExtractedElements then 0 else 1))
    (hlo : s.layerOpacity = (if s.useExtractedElements then 1 else 0)) :
    ((HybridScene.step scene hl rand s a).1.nodes.map Prod.fst =
        scene.elements.map (fun e => e.id)) ∧
    ((HybridScene.step scene hl rand s a).1.screenshotOpacity =
        (if (HybridScene.step scene hl rand s a).1.useExtractedElements then 0 else 1)) ∧
    ((HybridScene.step scene hl rand s a).1.layerOpacity =
        (if (HybridScene.step scene hl rand s a).1.useExtractedElements then 1 else 0)) ∧
    ((HybridScene.step scene hl rand s a).1.useExtractedElements = true ↔
      (s.useExtractedElements = true ∨
        (a.type = .cursor_move ∧ (findElement scene a.targetElementId).isSome = true))) := by
  obtain ⟨ty, tid, pl, d⟩ := a
  cases ty
  case cursor_move =>
    rcases hf : findElement scene tid with _ | e
    · simp [HybridScene.step, HybridScene.cursorMoveStep, hf, hkeys, hso, hlo]
    · have hmem := findElement_mem hf
      have hnodes : s.nodes ≠ [] := by
        intro h0
        have h1 : scene.elements.map (fun e => e.id) = [] := by
          rw [← hkeys, h0]; rfl
        exact List.ne_nil_of_mem hmem (List.map_eq_nil.mp h1)
      simp only [HybridScene.step, HybridScene.cursorMoveStep, hf]
      refine ⟨?_, ?_, ?_, ?_⟩ <;> (repeat' split) <;>
        simp_all [updateNode_keys, hkeys, hso, hlo, hf]
  case click =>
    rcases hf : findElement scene tid with _ | e
    · simp [HybridScene.step, HybridScene.clickStep, hf, hkeys, hso, hlo]
    · simp only [HybridScene.step, HybridScene.clickStep, hf]
      refine ⟨?_, ?_, ?_, ?_⟩ <;> (repeat' split) <;>
        simp_all [updateNode_keys, hkeys, hso, hlo, hf]
  case type =>
    rcases hp : truthy pl with _ | q
    · simp [HybridScene.step, HybridScene.typeStep, hp, hkeys, hso, hlo]
    · rcases hf : findElement scene tid with _ | e
      · simp [HybridScene.step, HybridScene.typeStep, hp, hf, hkeys, hso, hlo]
      · simp only [HybridScene.step, HybridScene.typeStep, hp, hf]
        refine ⟨?_, ?_, ?_, ?_⟩ <;> (repeat' split) <;>
          simp_all [updateNode_keys, hkeys, hso, hlo, hf]
  case wait => simp [HybridScene.step, hkeys, hso, hlo]
  case switch_scene => simp [HybridScene.step, hkeys, hso, hlo]


theorem find?_isSome_of_mem {α : Type} (p : α → Bool) :
    ∀ (l : List α) (x : α), x ∈ l → p x = true → (l.find? p).isSome = true := by
  intro l
  induction l with
  | nil => intro x hx; cases hx
  | cons y rest ih =>
    intro x hx hpx
    rcases List.mem_cons.mp hx with rfl | hmem
    · simp [List.find?, hpx]
    · by_cases hy : p y = true
      · simp [List.find?, hy]
      · simp only [List.find?]
        rw [Bool.not_eq_true] at hy
        rw [hy]
        exact ih x hmem hpx

theorem truthy_eq_some {o : Option String} {i : String} (h : truthy o = some i) :
    o = some i := by
  cases o with
  | none => simp [truthy] at h
  | some s =>
    simp only [truthy] at h
    split at h
    · exact absurd h (by simp)
    · injection h with h2
      rw [h2]

theorem hybrid_runAll_promotion (scene : SceneMap) (hl : String) (rand : ℕ → ℚ) :
    ∀ (acts : List Action) (s : HybridScene.State),
      s.nodes.map Prod.fst = scene.elements.map (fun e => e.id) →
      s.screenshotOpacity = (if s.useExtractedElements then 0 else 1) →
      s.layerOpacity = (if s.useExtractedElements then 1 else 0) →
      ((HybridScene.runAll scene hl rand s acts).1.nodes.map Prod.fst =
          scene.elements.map (fun e => e.id)) ∧
      ((HybridScene.runAll scene hl rand s acts).1.screenshotOpacity =
          (if (HybridScene.runAll scene hl rand s acts).1.useExtractedElements then 0 else 1)) ∧
      ((HybridScene.runAll scene hl rand s acts).1.layerOpacity =
          (if (HybridScene.runAll scene hl rand s acts).1.useExtractedElements then 1 else 0)) ∧
      ((HybridScene.runAll scene hl rand s acts).1.useExtractedElements = true ↔
        (s.useExtractedElements = true ∨
          ∃ a ∈ acts, a.type = .cursor_move ∧
            (findElement scene a.targetElementId).isSome = true)) := by
  intro acts
  induction acts with
  | nil =>
    intro s h1 h2 h3
    exact ⟨h1, h2, h3, by simp [HybridScene.runAll]⟩
  | cons a rest ih =>
    intro s h1 h2 h3
    obtain ⟨k1, k2, k3, k4⟩ := hybrid_step_promotion scene hl rand s a h1 h2 h3
    obtain ⟨m1, m2, m3, m4⟩ := ih (HybridScene.step scene hl rand s a).1 k1 k2 k3
    refine ⟨m1, m2, m3, ?_⟩
    rw [show (HybridScene.runAll scene hl rand s (a :: rest)).1 =
      (HybridScene.runAll scene hl rand (HybridScene.step scene hl rand s a).1 rest).1 from rfl]
    rw [m4, k4]
    simp only [List.mem_cons]
    constructor
    · rintro ((h | h) | ⟨x, hx, hx2⟩)
      · exact Or.inl h
      · exact Or.inr ⟨a, Or.inl rfl, h⟩
      · exact Or.inr ⟨x, Or.inr hx, hx2⟩
    · rintro (h | ⟨x, hx, hx2⟩)
      · exact Or.inl (Or.inl h)
      · rcases hx with rfl | hx
        · exact Or.inl (Or.inr hx2)
        · exact Or.inr ⟨x, hx, hx2⟩


/-- C7 (confirmed): in hybrid mode the screenshot-to-assets promotion is a
one-shot latch.  After any action list, the promotion flag is set exactly
when the list contains a `cursor_move` whose target resolves in the scene
(every resolved target has a corresponding keyed node in the asset layer,
so this is the first such `cursor_move`); the screenshot layer's opacity is
0 when promoted and 1 otherwise, and the asset layer's opacity is the
mirror image — so the screenshot never regains opacity once promoted, and
no later action re-runs the crossfade. -/
theorem c7_promotion_one_shot (scene : SceneMap) (hl : String) (rand : ℕ → ℚ)
    (acts : List Action) :
    ((HybridScene.runAll scene hl rand (HybridScene.initState scene) acts).1.useExtractedElements
        = true ↔
      ∃ a ∈ acts, a.type = .cursor_move ∧ (findElement scene a.targetElementId).isSome = true) ∧
    ((HybridScene.runAll scene hl rand (HybridScene.initState scene) acts).1.screenshotOpacity =
      (if (HybridScene.runAll scene hl rand
            (HybridScene.initState scene) acts).1.useExtractedElements then 0 else 1)) ∧
    ((HybridScene.runAll scene hl rand (HybridScene.initState scene) acts).1.layerOpacity =
      (if (HybridScene.runAll scene hl rand
            (HybridScene.initState scene) acts).1.useExtractedElements then 1 else 0)) ∧
    (∀ tid, (findElement scene tid).isSome = true →
      (HybridScene.getElementNode (HybridScene.initState scene).nodes tid).isSome = true) := by
  have h1 : (HybridScene.initState scene).nodes.map Prod.fst =
      scene.elements.map (fun e => e.id) := by
    simp [HybridScene.initState]
  obtain ⟨m1, m2, m3, m4⟩ :=
    hybrid_runAll_promotion scene hl rand acts (HybridScene.initState scene) h1 rfl rfl
  refine ⟨?_, m2, m3, ?_⟩
  · rw [m4]
    simp [HybridScene.initState]
  · intro tid h
    rcases hf2 : findElement scene tid with _ | e
    · rw [hf2] at h; simp at h
    · have hmem := findElement_mem hf2
      unfold findElement at hf2
      rcases ht : truthy tid with _ | i
      · rw [ht] at hf2; exact absurd hf2 (by simp)
      · rw [ht] at hf2
        have hid := List.find?_some hf2
        rw [truthy_eq_some ht]
        simp only [HybridScene.getElementNode]
        have hmem2 : (e.id, HybridScene.initNode e) ∈ (HybridScene.initState scene).nodes :=
          List.mem_map_of_mem (fun e => (e.id, HybridScene.initNode e)) hmem
        have hfind := find?_isSome_of_mem (fun p => p.1 = i)
          (HybridScene.initState scene).nodes (e.id, HybridScene.initNode e) hmem2
          (by simpa using hid)
        simpa using hfind

/-- C7 witness: one resolved `cursor_move` over the demo scene promotes. -/
theorem c7_witness :
    (findElement demoScene (some "search_input")).isSome = true ∧
    ((HybridScene.runAll demoScene "#4285f4" demoRand (HybridScene.initState demoScene)
        [demoMove]).1.useExtractedElements = true ↔
      ∃ a ∈ [demoMove], a.type = .cursor_move ∧
        (findElement demoScene a.targetElementId).isSome = true) ∧
    (HybridScene.getElementNode (HybridScene.initState demoScene).nodes
      (some "search_input")).isSome = true :=
  ⟨by with_unfolding_all rfl,
   (c7_promotion_one_shot demoScene "#4285f4" demoRand [demoMove]).1,
   (c7_promotion_one_shot demoScene "#4285f4" demoRand [demoMove]).2.2.2
     (some "search_input") (by with_unfolding_all rfl)⟩


theorem hybrid_step_state_rand (scene : SceneMap) (hl : String) (r1 r2 : ℕ → ℚ)
    (s : HybridScene.State) (a : Action) :
    (HybridScene.step scene hl r1 s a).1 = (HybridScene.step scene hl r2 s a).1 := by
  obtain ⟨ty, tid, pl, d⟩ := a
  cases ty
  case type =>
    rcases hp : truthy pl with _ | q <;> rcases hf : findElement scene tid with _ | e <;>
      simp [HybridScene.step, HybridScene.typeStep, hp, hf]
  all_goals rfl

theorem master_step_state_rand (sb : Storyboard) (r1 r2 : ℕ → ℚ)
    (s : MasterScene.State) (a : Action) :
    (MasterScene.step sb r1 s a).1 = (MasterScene.step sb r2 s a).1 := by
  obtain ⟨ty, tid, pl, d⟩ := a
  cases ty
  case type =>
    rcases hp : truthy pl with _ | q <;>
      simp [MasterScene.step, MasterScene.typeStep, hp]
  all_goals rfl

theorem canvas_step_state_rand (sb : Storyboard) (hl : String) (r1 r2 : ℕ → ℚ)
    (s : CanvasScene.State) (a : Action) :
    (CanvasScene.step sb hl r1 s a).1 = (CanvasScene.step sb hl r2 s a).1 := by
  obtain ⟨ty, tid, pl, d⟩ := a
  cases ty
  case type =>
    rcases hp : truthy pl with _ | q <;>
      rcases hf : findElement s.activeScene tid with _ | e <;>
      simp [CanvasScene.step, CanvasScene.typeStep, hp, hf]
  all_goals rfl

theorem hybrid_runAll_state_rand (scene : SceneMap) (hl : String) (r1 r2 : ℕ → ℚ) :
    ∀ (acts : List Action) (s : HybridScene.State),
      (HybridScene.runAll scene hl r1 s acts).1 = (HybridScene.runAll scene hl r2 s acts).1 := by
  intro acts
  induction acts with
  | nil => intro s; rfl
  | cons a rest ih =>
    intro s
    show (HybridScene.runAll scene hl r1 (HybridScene.step scene hl r1 s a).1 rest).1 =
      (HybridScene.runAll scene hl r2 (HybridScene.step scene hl r2 s a).1 rest).1
    rw [hybrid_step_state_rand scene hl r1 r2 s a]
    exact ih (HybridScene.step scene hl r2 s a).1

theorem master_runAll_state_rand (sb : Storyboard) (r1 r2 : ℕ → ℚ) :
    ∀ (acts : List Action) (s : MasterScene.State),
      (MasterScene.runAll sb r1 s acts).1 = (MasterScene.runAll sb r2 s acts).1 := by
  intro acts
  induction acts with
  | nil => intro s; rfl
  | cons a rest ih =>
    intro s
    show (MasterScene.runAll sb r1 (MasterScene.step sb r1 s a).1 rest).1 =
      (MasterScene.runAll sb r2 (MasterScene.step sb r2 s a).1 rest).1
    rw [master_step_state_rand sb r1 r2 s a]
    exact ih (MasterScene.step sb r2 s a).1

theorem canvas_runAll_state_rand (sb : Storyboard) (hl : String) (r1 r2 : ℕ → ℚ) :
    ∀ (acts : List Action) (s : CanvasScene.State),
      (CanvasScene.runAll sb hl r1 s acts).1 = (CanvasScene.runAll sb hl r2 s acts).1 := by
  intro acts
  induction acts with
  | nil => intro s; rfl
  | cons a rest ih =>
    intro s
    show (CanvasScene.runAll sb hl r1 (CanvasScene.step sb hl r1 s a).1 rest).1 =
      (CanvasScene.runAll sb hl r2 (CanvasScene.step sb hl r2 s a).1 rest).1
    rw [canvas_step_state_rand sb hl r1 r2 s a]
    exact ih (CanvasScene.step sb hl r2 s a).1

theorem hybrid_play_events (sc : SceneMap) (rest : List SceneMap) (as : List Action)
    (r : ℕ → ℚ) :
    (HybridScene.play ⟨sc :: rest, as⟩ r).map (fun x => x.1.events) =
      .ok ((HybridScene.runAll sc (jsOr sc.colorScheme.primary "#4285f4") r
        (HybridScene.initState sc) as).1.events) := rfl

theorem hybrid_play_diags (sc : SceneMap) (rest : List SceneMap) (as : List Action)
    (r : ℕ → ℚ) :
    (HybridScene.play ⟨sc :: rest, as⟩ r).map (fun x => x.1.diagnostics) =
      .ok ((HybridScene.runAll sc (jsOr sc.colorScheme.primary "#4285f4") r
        (HybridScene.initState sc) as).1.diagnostics) := rfl

theorem master_play_events (sc : SceneMap) (rest : List SceneMap) (as : List Action)
    (r : ℕ → ℚ) :
    (MasterScene.play ⟨sc :: rest, as⟩ r).map (fun x => x.1.events) =
      .ok ((MasterScene.runAll ⟨sc :: rest, as⟩ r (MasterScene.initState sc) as).1.events) := rfl

theorem master_play_diags (sc : SceneMap) (rest : List SceneMap) (as : List Action)
    (r : ℕ → ℚ) :
    (MasterScene.play ⟨sc :: rest, as⟩ r).map (fun x => x.1.diagnostics) =
      .ok ((MasterScene.runAll ⟨sc :: rest, as⟩ r
        (MasterScene.initState sc) as).1.diagnostics) := rfl

theorem canvas_play_events (sc : SceneMap) (rest : List SceneMap) (as : List Action)
    (r : ℕ → ℚ) :
    (CanvasScene.play ⟨sc :: rest, as⟩ r).map (fun x => x.1.events) =
      .ok ((CanvasScene.runAll ⟨sc :: rest, as⟩ (jsOr sc.colorScheme.primary "#4285f4") r
        (CanvasScene.initState sc) as).1.events) := rfl

theorem canvas_play_diags (sc : SceneMap) (rest : List SceneMap) (as : List Action)
    (r : ℕ → ℚ) :
    (CanvasScene.play ⟨sc :: rest, as⟩ r).map (fun x => x.1.diagnostics) =
      .ok ((CanvasScene.runAll ⟨sc :: rest, as⟩ (jsOr sc.colorScheme.primary "#4285f4") r
        (CanvasScene.initState sc) as).1.diagnostics) := rfl

/-- C8 (confirmed): replaying the same storyboard under two different
jitter streams yields the same ordered logical event trace (action kind,
carried and resolved target, skip flag) and the same diagnostics in all
three renderer scenes — randomness enters only the per-character typing
delays, which affect wall-clock micro-timing and nothing else. -/
theorem c8_logical_trace_deterministic (sb : Storyboard) (r1 r2 : ℕ → ℚ) :
    (HybridScene.play sb r1).map (fun r => r.1.events) =
      (HybridScene.play sb r2).map (fun r => r.1.events) ∧
    (MasterScene.play sb r1).map (fun r => r.1.events) =
      (MasterScene.play sb r2).map (fun r => r.1.events) ∧
    (CanvasScene.play sb r1).map (fun r => r.1.events) =
      (CanvasScene.play sb r2).map (fun r => r.1.events) ∧
    (HybridScene.play sb r1).map (fun r => r.1.diagnostics) =
      (HybridScene.play sb r2).map (fun r => r.1.diagnostics) ∧
    (MasterScene.play sb r1).map (fun r => r.1.diagnostics) =
      (MasterScene.play sb r2).map (fun r => r.1.diagnostics) ∧
    (CanvasScene.play sb r1).map (fun r => r.1.diagnostics) =
      (CanvasScene.play sb r2).map (fun r => r.1.diagnostics) := by
  obtain ⟨ss, as⟩ := sb
  cases ss with
  | nil => exact ⟨rfl, rfl, rfl, rfl, rfl, rfl⟩
  | cons sc rest =>
    have h1 := hybrid_runAll_state_rand sc (jsOr sc.colorScheme.primary "#4285f4") r1 r2 as
      (HybridScene.initState sc)
    have h2 := master_runAll_state_rand ⟨sc :: rest, as⟩ r1 r2 as (MasterScene.initState sc)
    have h3 := canvas_runAll_state_rand ⟨sc :: rest, as⟩
      (jsOr sc.colorScheme.primary "#4285f4") r1 r2 as (CanvasScene.initState sc)
    refine ⟨?_, ?_, ?_, ?_, ?_, ?_⟩
    · rw [hybrid_play_events, hybrid_play_events, h1]
    · rw [master_play_events, master_play_events, h2]
    · rw [canvas_play_events, canvas_play_events, h3]
    · rw [hybrid_play_diags, hybrid_play_diags, h1]
    · rw [master_play_diags, master_play_diags, h2]
    · rw [canvas_play_diags, canvas_play_diags, h3]


theorem updateNode_comp (i : String) (f g : HybridScene.AssetNode → HybridScene.AssetNode) :
    ∀ l, HybridScene.updateNode (some i) f (HybridScene.updateNode (some i) g l) =
      HybridScene.updateNode (some i) (fun n => f (g n)) l := by
  intro l
  induction l with
  | nil => rfl
  | cons p rest ih =>
    by_cases h : p.1 = i
    · simp [HybridScene.updateNode, h]
    · simp [HybridScene.updateNode, h, ih]

theorem mem_updateNode {oid : Option String} {f : HybridScene.AssetNode → HybridScene.AssetNode} :
    ∀ {l : List (String × HybridScene.AssetNode)} {x},
      x ∈ HybridScene.updateNode oid f l → (∃ y ∈ l, x = (y.1, f y.2)) ∨ x ∈ l := by
  intro l
  induction l with
  | nil =>
    intro x hx
    cases oid <;> simp [HybridScene.updateNode] at hx
  | cons p rest ih =>
    intro x hx
    cases oid with
    | none => exact Or.inr hx
    | some i =>
      by_cases h : p.1 = i
      · simp only [HybridScene.updateNode, if_pos h] at hx
        rcases List.mem_cons.mp hx with rfl | hmem
        · exact Or.inl ⟨p, List.mem_cons_self p rest, rfl⟩
        · exact Or.inr (List.mem_cons_of_mem p hmem)
      · simp only [HybridScene.updateNode, if_neg h] at hx
        rcases List.mem_cons.mp hx with rfl | hmem
        · exact Or.inr (List.mem_cons_self x rest)
        · rcases ih hmem with ⟨y, hy, rfl⟩ | hx2
          · exact Or.inl ⟨y, List.mem_cons_of_mem p hy, rfl⟩
          · exact Or.inr (List.mem_cons_of_mem p hx2)

theorem updateNode_scale_pres {oid : Option String}
    {f : HybridScene.AssetNode → HybridScene.AssetNode}
    {l : List (String × HybridScene.AssetNode)}
    (hl : ∀ p ∈ l, (Prod.snd p).scale = 1)
    (hf : ∀ n : HybridScene.AssetNode, (f n).scale = n.scale) :
    ∀ p ∈ HybridScene.updateNode oid f l, (Prod.snd p).scale = 1 := by
  intro p hp
  rcases mem_updateNode hp with ⟨y, hy, rfl⟩ | hp2
  · rw [show (Prod.snd (y.1, f y.2)) = f y.2 from rfl, hf y.2]
    exact hl y hy
  · exact hl p hp2

theorem updateNode_scale_set {oid : Option String}
    {f : HybridScene.AssetNode → HybridScene.AssetNode}
    {l : List (String × HybridScene.AssetNode)}
    (hl : ∀ p ∈ l, (Prod.snd p).scale = 1)
    (hf : ∀ n : HybridScene.AssetNode, (f n).scale = 1) :
    ∀ p ∈ HybridScene.updateNode oid f l, (Prod.snd p).scale = 1 := by
  intro p hp
  rcases mem_updateNode hp with ⟨y, hy, rfl⟩ | hp2
  · exact hf y.2
  · exact hl p hp2

theorem getElementNode_updateNode (i : String)
    (f : HybridScene.AssetNode → HybridScene.AssetNode) :
    ∀ l, HybridScene.getElementNode (HybridScene.updateNode (some i) f l) (some i) =
      (HybridScene.getElementNode l (some i)).map f := by
  intro l
  induction l with
  | nil => rfl
  | cons p rest ih =>
    by_cases h : p.1 = i
    · simp only [HybridScene.updateNode, if_pos h]
      show (((p.1, f p.2) :: rest).find? (fun q => q.1 = i)).map (fun q => q.2) =
        (((p :: rest).find? (fun q => q.1 = i)).map (fun q => q.2)).map f
      rw [List.find?_cons_of_pos _ (by simpa using h),
          List.find?_cons_of_pos _ (by simpa using h)]
      rfl
    · simp only [HybridScene.updateNode, if_neg h]
      show ((p :: HybridScene.updateNode (some i) f rest).find? (fun q => q.1 = i)).map
          (fun q => q.2) =
        (((p :: rest).find? (fun q => q.1 = i)).map (fun q => q.2)).map f
      rw [List.find?_cons_of_neg _ (by simpa using h),
          List.find?_cons_of_neg _ (by simpa using h)]
      exact ih

theorem getElementNode_some_mem {l : List (String × HybridScene.AssetNode)} {i : String}
    {n : HybridScene.AssetNode} (h : HybridScene.getElementNode l (some i) = some n) :
    ∃ p ∈ l, Prod.snd p = n := by
  have h2 : (l.find? (fun p => p.1 = i)).map (fun p => p.2) = some n := h
  rcases hf : l.find? (fun p => p.1 = i) with _ | p
  · rw [hf] at h2; simp at h2
  · rw [hf] at h2
    simp at h2
    exact ⟨p, List.mem_of_find?_eq_some hf, h2⟩


theorem hybrid_step_scales (scene : SceneMap) (hl : String) (rand : ℕ → ℚ)
    (s : HybridScene.State) (a : Action)
    (hc : s.cursorScale = 1)
    (hn : ∀ p ∈ s.nodes, (Prod.snd p).scale = 1) :
    (HybridScene.step scene hl rand s a).1.cursorScale = 1 ∧
    ∀ p ∈ (HybridScene.step scene hl rand s a).1.nodes, (Prod.snd p).scale = 1 := by
  obtain ⟨ty, tid, pl, d⟩ := a
  cases ty
  case cursor_move =>
    rcases hf : findElement scene tid with _ | e
    · simp only [HybridScene.step, HybridScene.cursorMoveStep, hf]
      exact ⟨hc, hn⟩
    · simp only [HybridScene.step, HybridScene.cursorMoveStep, hf]
      constructor
      · (repeat' split) <;> exact hc
      · (repeat' split) <;> intro p hp <;>
          first
          | exact hn p hp
          | (refine updateNode_scale_pres hn ?_ p hp
             intro n; rfl)
  case click =>
    rcases hf : findElement scene tid with _ | e
    · simp only [HybridScene.step, HybridScene.clickStep, hf]
      exact ⟨hc, hn⟩
    · rcases tid with _ | j
      · simp [findElement, truthy] at hf
      · simp only [HybridScene.step, HybridScene.clickStep, hf]
        constructor
        · trivial
        · (repeat' split) <;> intro p hp <;>
            first
            | exact hn p hp
            | (rw [updateNode_comp] at hp
               refine updateNode_scale_set hn ?_ p hp
               intro n; rfl)
            | (rw [updateNode_comp, updateNode_comp] at hp
               refine updateNode_scale_set hn ?_ p hp
               intro n; rfl)
            | simp_all
  case type =>
    rcases hp : truthy pl with _ | q
    · simp only [HybridScene.step, HybridScene.typeStep, hp]
      exact ⟨hc, hn⟩
    · rcases hf : findElement scene tid with _ | e
      · simp only [HybridScene.step, HybridScene.typeStep, hp, hf]
        exact ⟨hc, hn⟩
      · simp only [HybridScene.step, HybridScene.typeStep, hp, hf]
        constructor
        · (repeat' split) <;> exact hc
        · (repeat' split) <;> intro p hp2 <;>
            first
            | exact hn p hp2
            | (refine updateNode_scale_pres hn ?_ p hp2
               intro n; rfl)
            | (refine updateNode_scale_pres ?_ ?_ p hp2
               · refine updateNode_scale_pres hn ?_
                 intro n; rfl
               · intro n; rfl)
  case wait => exact ⟨hc, hn⟩
  case switch_scene => exact ⟨hc, hn⟩

theorem hybrid_runAll_scales (scene : SceneMap) (hl : String) (rand : ℕ → ℚ) :
    ∀ (acts : List Action) (s : HybridScene.State),
      s.cursorScale = 1 → (∀ p ∈ s.nodes, (Prod.snd p).scale = 1) →
      (HybridScene.runAll scene hl rand s acts).1.cursorScale = 1 ∧
      ∀ p ∈ (HybridScene.runAll scene hl rand s acts).1.nodes, (Prod.snd p).scale = 1 := by
  intro acts
  induction acts with
  | nil => intro s hc hn; exact ⟨hc, hn⟩
  | cons a rest ih =>
    intro s hc hn
    obtain ⟨k1, k2⟩ := hybrid_step_scales scene hl rand s a hc hn
    exact ih (HybridScene.step scene hl rand s a).1 k1 k2


theorem master_step_cursorScale (sb : Storyboard) (rand : ℕ → ℚ)
    (s : MasterScene.State) (a : Action) (hc : s.cursorScale = 1) :
    (MasterScene.step sb rand s a).1.cursorScale = 1 := by
  obtain ⟨ty, tid, pl, d⟩ := a
  cases ty
  case cursor_move =>
    rcases hf : findElement s.activeScene tid with _ | e <;>
      simp only [MasterScene.step, MasterScene.cursorMoveStep, hf] <;> exact hc
  case click =>
    rcases hf : findElement s.activeScene tid with _ | e <;>
      simp only [MasterScene.step, MasterScene.clickStep, hf] <;> exact hc
  case type =>
    rcases hp : truthy pl with _ | q <;>
      simp only [MasterScene.step, MasterScene.typeStep, hp] <;> exact hc
  case wait => exact hc
  case switch_scene =>
    rcases hp : truthy pl with _ | q
    · simp only [MasterScene.step, MasterScene.switchSceneStep, hp]; exact hc
    · rcases hs : sb.scenes.find? (fun sc => sc.sceneId = q) with _ | nxt <;>
        simp only [MasterScene.step, MasterScene.switchSceneStep, hp, hs] <;> exact hc

theorem master_runAll_cursorScale (sb : Storyboard) (rand : ℕ → ℚ) :
    ∀ (acts : List Action) (s : MasterScene.State), s.cursorScale = 1 →
      (MasterScene.runAll sb rand s acts).1.cursorScale = 1 := by
  intro acts
  induction acts with
  | nil => intro s hc; exact hc
  | cons a rest ih =>
    intro s hc
    exact ih (MasterScene.step sb rand s a).1 (master_step_cursorScale sb rand s a hc)

theorem canvas_updateNode_comp (i : String) (f g : CanvasScene.UINode → CanvasScene.UINode) :
    ∀ l, CanvasScene.updateNode (some i) f (CanvasScene.updateNode (some i) g l) =
      CanvasScene.updateNode (some i) (fun n => f (g n)) l := by
  intro l
  induction l with
  | nil => rfl
  | cons p rest ih =>
    by_cases h : p.1 = i
    · simp [CanvasScene.updateNode, h]
    · simp [CanvasScene.updateNode, h, ih]

theorem canvas_mem_updateNode {oid : Option String} {f : CanvasScene.UINode → CanvasScene.UINode} :
    ∀ {l : List (String × CanvasScene.UINode)} {x},
      x ∈ CanvasScene.updateNode oid f l → (∃ y ∈ l, x = (y.1, f y.2)) ∨ x ∈ l := by
  intro l
  induction l with
  | nil =>
    intro x hx
    cases oid <;> simp [CanvasScene.updateNode] at hx
  | cons p rest ih =>
    intro x hx
    cases oid with
    | none => exact Or.inr hx
    | some i =>
      by_cases h : p.1 = i
      · simp only [CanvasScene.updateNode, if_pos h] at hx
        rcases List.mem_cons.mp hx with rfl | hmem
        · exact Or.inl ⟨p, List.mem_cons_self p rest, rfl⟩
        · exact Or.inr (List.mem_cons_of_mem p hmem)
      · simp only [CanvasScene.updateNode, if_neg h] at hx
        rcases List.mem_cons.mp hx with rfl | hmem
        · exact Or.inr (List.mem_cons_self x rest)
        · rcases ih hmem with ⟨y, hy, rfl⟩ | hx2
          · exact Or.inl ⟨y, List.mem_cons_of_mem p hy, rfl⟩
          · exact Or.inr (List.mem_cons_of_mem p hx2)

theorem canvas_updateNode_scale_pres {oid : Option String}
    {f : CanvasScene.UINode → CanvasScene.UINode}
    {l : List (String × CanvasScene.UINode)}
    (hl : ∀ p ∈ l, (Prod.snd p).scale = 1)
    (hf : ∀ n : CanvasScene.UINode, (f n).scale = n.scale) :
    ∀ p ∈ CanvasScene.updateNode oid f l, (Prod.snd p).scale = 1 := by
  intro p hp
  rcases canvas_mem_updateNode hp with ⟨y, hy, rfl⟩ | hp2
  · rw [show (Prod.snd (y.1, f y.2)) = f y.2 from rfl, hf y.2]
    exact hl y hy
  · exact hl p hp2

theorem canvas_updateNode_scale_set {oid : Option String}
    {f : CanvasScene.UINode → CanvasScene.UINode}
    {l : List (String × CanvasScene.UINode)}
    (hl : ∀ p ∈ l, (Prod.snd p).scale = 1)
    (hf : ∀ n : CanvasScene.UINode, (f n).scale = 1) :
    ∀ p ∈ CanvasScene.updateNode oid f l, (Prod.snd p).scale = 1 := by
  intro p hp
  rcases canvas_mem_updateNode hp with ⟨y, hy, rfl⟩ | hp2
  · exact hf y.2
  · exact hl p hp2

theorem canvas_find_updateNode (i : String) (f : CanvasScene.UINode → CanvasScene.UINode) :
    ∀ l : List (String × CanvasScene.UINode),
      ((CanvasScene.updateNode (some i) f l).find? (fun q => q.1 = i)).map (fun q => q.2) =
        ((l.find? (fun q => q.1 = i)).map (fun q => q.2)).map f := by
  intro l
  induction l with
  | nil => rfl
  | cons p rest ih =>
    by_cases h : p.1 = i
    · simp only [CanvasScene.updateNode, if_pos h]
      rw [List.find?_cons_of_pos _ (by simpa using h),
          List.find?_cons_of_pos _ (by simpa using h)]
      rfl
    · simp only [CanvasScene.updateNode, if_neg h]
      rw [List.find?_cons_of_neg _ (by simpa using h),
          List.find?_cons_of_neg _ (by simpa using h)]
      exact ih

theorem canvas_find_some_mem {l : List (String × CanvasScene.UINode)} {i : String}
    {n : CanvasScene.UINode}
    (h : (l.find? (fun q => q.1 = i)).map (fun q => q.2) = some n) :
    ∃ p ∈ l, Prod.snd p = n := by
  rcases hf : l.find? (fun q => q.1 = i) with _ | p
  · rw [hf] at h; simp at h
  · rw [hf] at h
    simp at h
    exact ⟨p, List.mem_of_find?_eq_some hf, h⟩

theorem canvas_step_scales (sb : Storyboard) (hl : String) (rand : ℕ → ℚ)
    (s : CanvasScene.State) (a : Action)
    (hc : s.cursorScale = 1)
    (hn : ∀ p ∈ s.nodes, (Prod.snd p).scale = 1) :
    (CanvasScene.step sb hl rand s a).1.cursorScale = 1 ∧
    ∀ p ∈ (CanvasScene.step sb hl rand s a).1.nodes, (Prod.snd p).scale = 1 := by
  obtain ⟨ty, tid, pl, d⟩ := a
  cases ty
  case cursor_move =>
    rcases hf : findElement s.activeScene tid with _ | e
    · simp only [CanvasScene.step, CanvasScene.cursorMoveStep, hf]
      exact ⟨hc, hn⟩
    · simp only [CanvasScene.step, CanvasScene.cursorMoveStep, hf]
      constructor
      · (repeat' split) <;> exact hc
      · (repeat' split) <;> intro p hp <;>
          first
          | exact hn p hp
          | (refine canvas_updateNode_scale_pres hn ?_ p hp
             intro n; rfl)
  case click =>
    rcases hf : findElement s.activeScene tid with _ | e
    · simp only [CanvasScene.step, CanvasScene.clickStep, hf]
      exact ⟨hc, hn⟩
    · rcases tid with _ | j
      · simp [findElement, truthy] at hf
      · simp only [CanvasScene.step, CanvasScene.clickStep, hf]
        constructor
        · (repeat' split) <;> trivial
        · (repeat' split) <;> intro p hp <;>
            first
            | exact hn p hp
            | (rw [canvas_updateNode_comp] at hp
               refine canvas_updateNode_scale_set hn ?_ p hp
               intro n; rfl)
            | (rw [canvas_updateNode_comp, canvas_updateNode_comp] at hp
               refine canvas_updateNode_scale_set hn ?_ p hp
               intro n; rfl)
            | simp_all
  case type =>
    rcases hp : truthy pl with _ | q
    · simp only [CanvasScene.step, CanvasScene.typeStep, hp]
      exact ⟨hc, hn⟩
    · rcases hf : findElement s.activeScene tid with _ | e
      · simp only [CanvasScene.step, CanvasScene.typeStep, hp, hf]
        exact ⟨hc, hn⟩
      · simp only [CanvasScene.step, CanvasScene.typeStep, hp, hf]
        constructor
        · (repeat' split) <;> exact hc
        · (repeat' split) <;> intro p hp2 <;>
            first
            | exact hn p hp2
            | (refine canvas_updateNode_scale_pres hn ?_ p hp2
               intro n; rfl)
            | (refine canvas_updateNode_scale_pres ?_ ?_ p hp2
               · refine canvas_updateNode_scale_pres hn ?_
                 intro n; rfl
               · intro n; rfl)
  case wait => exact ⟨hc, hn⟩
  case switch_scene =>
    rcases hp : truthy pl with _ | q
    · simp only [CanvasScene.step, CanvasScene.switchSceneStep, hp]
      exact ⟨hc, hn⟩
    · rcases hs : sb.scenes.find? (fun sc => sc.sceneId = q) with _ | nxt
      · simp only [CanvasScene.step, CanvasScene.switchSceneStep, hp, hs]
        exact ⟨hc, hn⟩
      · simp only [CanvasScene.step, CanvasScene.switchSceneStep, hp, hs]
        constructor
        · exact hc
        · intro p hp2
          obtain ⟨e2, he2, rfl⟩ := List.mem_map.mp hp2
          rfl

theorem canvas_runAll_scales (sb : Storyboard) (hl : String) (rand : ℕ → ℚ) :
    ∀ (acts : List Action) (s : CanvasScene.State),
      s.cursorScale = 1 → (∀ p ∈ s.nodes, (Prod.snd p).scale = 1) →
      (CanvasScene.runAll sb hl rand s acts).1.cursorScale = 1 ∧
      ∀ p ∈ (CanvasScene.runAll sb hl rand s acts).1.nodes, (Prod.snd p).scale = 1 := by
  intro acts
  induction acts with
  | nil => intro s hc hn; exact ⟨hc, hn⟩
  | cons a rest ih =>
    intro s hc hn
    obtain ⟨k1, k2⟩ := canvas_step_scales sb hl rand s a hc hn
    exact ih (CanvasScene.step sb hl rand s a).1 k1 k2

/-- C9 (counterexample): hybrid asset-layer nodes are created at opacity 0;
a click's release sets the target node's opacity to the constant 1, so
after the very first click on `search_input` the node's opacity is 1, not
its pre-press value 0 — the press/release pair is not the identity on the
target node's opacity. -/
theorem c9_counterexample :
    (HybridScene.getElementNode (HybridScene.initState demoScene).nodes
      (some "search_input")).map (fun n => n.opacity) = some 0 ∧
    ((HybridScene.play ⟨[demoScene], [demoClick]⟩ demoRand).toOption.bind
      (fun r => (HybridScene.getElementNode r.1.nodes (some "search_input")).map
        (fun n => n.opacity))) = some 1 ∧
    (0 : ℚ) ≠ 1 :=
  ⟨by with_unfolding_all rfl, by with_unfolding_all rfl, by norm_num⟩

/-- C9 (corrected): in every renderer, by the time a resolved `click`
completes the cursor's position and scale equal their pre-press values from
any reachable state (the release restores the saved position, and the scale
returns to 1, its value at every action boundary).  In the hybrid and
canvas renderers the target node's scale is likewise restored; the target
node's opacity, however, is set to the constant 1 rather than restored —
which differs from its pre-press value exactly when the node was not
already at opacity 1 (hybrid asset nodes start at opacity 0, canvas
icon/logo nodes at 0.8/0.3; see the counterexample).  The master renderer
has no target node. -/
theorem c9_click_press_release :
    (∀ (scene : SceneMap) (hl : String) (rand : ℕ → ℚ) (acts : List Action)
       (a : Action) (e : UIElement),
      a.type = .click →
      findElement scene a.targetElementId = some e →
      ((HybridScene.step scene hl rand
          (HybridScene.runAll scene hl rand (HybridScene.initState scene) acts).1 a).1.cursorPos =
        (HybridScene.runAll scene hl rand (HybridScene.initState scene) acts).1.cursorPos) ∧
      ((HybridScene.step scene hl rand
          (HybridScene.runAll scene hl rand (HybridScene.initState scene) acts).1 a).1.cursorScale =
        (HybridScene.runAll scene hl rand (HybridScene.initState scene) acts).1.cursorScale) ∧
      ((HybridScene.getElementNode (HybridScene.step scene hl rand
          (HybridScene.runAll scene hl rand (HybridScene.initState scene) acts).1 a).1.nodes
          a.targetElementId).map (fun n => n.scale) =
        (HybridScene.getElementNode
          (HybridScene.runAll scene hl rand (HybridScene.initState scene) acts).1.nodes
          a.targetElementId).map (fun n => n.scale)) ∧
      (∀ n, HybridScene.getElementNode (HybridScene.step scene hl rand
          (HybridScene.runAll scene hl rand (HybridScene.initState scene) acts).1 a).1.nodes
          a.targetElementId = some n → n.opacity = 1)) ∧
    (∀ (sc : SceneMap) (sb : Storyboard) (rand : ℕ → ℚ) (acts : List Action)
       (a : Action) (e : UIElement),
      a.type = .click →
      findElement (MasterScene.runAll sb rand (MasterScene.initState sc) acts).1.activeScene
        a.targetElementId = some e →
      ((MasterScene.step sb rand
          (MasterScene.runAll sb rand (MasterScene.initState sc) acts).1 a).1.cursorPos =
        (MasterScene.runAll sb rand (MasterScene.initState sc) acts).1.cursorPos) ∧
      ((MasterScene.step sb rand
          (MasterScene.runAll sb rand (MasterScene.initState sc) acts).1 a).1.cursorScale =
        (MasterScene.runAll sb rand (MasterScene.initState sc) acts).1.cursorScale)) ∧
    (∀ (sc : SceneMap) (sb : Storyboard) (hl : String) (rand : ℕ → ℚ) (acts : List Action)
       (a : Action) (e : UIElement),
      a.type = .click →
      findElement (CanvasScene.runAll sb hl rand (CanvasScene.initState sc) acts).1.activeScene
        a.targetElementId = some e →
      ((CanvasScene.step sb hl rand
          (CanvasScene.runAll sb hl rand (CanvasScene.initState sc) acts).1 a).1.cursorPos =
        (CanvasScene.runAll sb hl rand (CanvasScene.initState sc) acts).1.cursorPos) ∧
      ((CanvasScene.step sb hl rand
          (CanvasScene.runAll sb hl rand (CanvasScene.initState sc) acts).1 a).1.cursorScale =
        (CanvasScene.runAll sb hl rand (CanvasScene.initState sc) acts).1.cursorScale) ∧
      ((CanvasScene.getElementNode (CanvasScene.step sb hl rand
          (CanvasScene.runAll sb hl rand (CanvasScene.initState sc) acts).1 a).1
          a.targetElementId).map (fun n => n.scale) =
        (CanvasScene.getElementNode
          (CanvasScene.runAll sb hl rand (CanvasScene.initState sc) acts).1
          a.targetElementId).map (fun n => n.scale)) ∧
      (∀ n, CanvasScene.getElementNode (CanvasScene.step sb hl rand
          (CanvasScene.runAll sb hl rand (CanvasScene.initState sc) acts).1 a).1
          a.targetElementId = some n → n.opacity = 1)) := by
  refine ⟨?_, ?_, ?_⟩
  · intro scene hl rand acts a e hk hf
    have hninit : ∀ p ∈ (HybridScene.initState scene).nodes, (Prod.snd p).scale = 1 := by
      intro p hp
      obtain ⟨e2, he2, rfl⟩ := List.mem_map.mp hp
      rfl
    obtain ⟨hc, hn⟩ := hybrid_runAll_scales scene hl rand acts (HybridScene.initState scene)
      rfl hninit
    set s := (HybridScene.runAll scene hl rand (HybridScene.initState scene) acts).1 with hs
    obtain ⟨ty, tid, pl, d⟩ := a
    cases hk
    rcases tid with _ | j
    · simp [findElement, truthy] at hf
    · refine ⟨?_, ?_, ?_, ?_⟩
      · simp only [HybridScene.step, HybridScene.clickStep, hf]
      · have h1 : (HybridScene.step scene hl rand s
            ⟨.click, some j, pl, d⟩).1.cursorScale = 1 := by
          simp only [HybridScene.step, HybridScene.clickStep, hf]
        rw [h1, hc]
      · rcases hnode : HybridScene.getElementNode s.nodes (some j) with _ | n
        · simp only [HybridScene.step, HybridScene.clickStep, hf, hnode]
          simp [hnode]
        · obtain ⟨p, hpmem, hpn⟩ := getElementNode_some_mem hnode
          have hscale : n.scale = 1 := by rw [← hpn]; exact hn p hpmem
          simp only [HybridScene.step, HybridScene.clickStep, hf, hnode]
          (repeat' split) <;>
            simp_all [updateNode_comp, getElementNode_updateNode, hnode, hscale]
      · intro n hn2
        rcases hnode : HybridScene.getElementNode s.nodes (some j) with _ | m
        · have hx : (HybridScene.step scene hl rand s ⟨.click, some j, pl, d⟩).1.nodes =
              s.nodes := by
            simp only [HybridScene.step, HybridScene.clickStep, hf, hnode]
            simp [hnode]
          rw [hx, hnode] at hn2
          cases hn2
        · have hx : HybridScene.getElementNode (HybridScene.step scene hl rand s
              ⟨.click, some j, pl, d⟩).1.nodes (some j) =
              some { m with scale := 1, opacity := 1, shadowBlur := 0 } := by
            simp only [HybridScene.step, HybridScene.clickStep, hf, hnode]
            (repeat' split) <;>
              simp_all [updateNode_comp, getElementNode_updateNode, hnode]
          rw [hx] at hn2
          injection hn2 with h3
          rw [← h3]
  · intro sc sb rand acts a e hk hf
    have hc := master_runAll_cursorScale sb rand acts (MasterScene.initState sc) rfl
    set s := (MasterScene.runAll sb rand (MasterScene.initState sc) acts).1 with hs
    obtain ⟨ty, tid, pl, d⟩ := a
    cases hk
    refine ⟨?_, ?_⟩
    · simp only [MasterScene.step, MasterScene.clickStep, hf]
    · have h1 : (MasterScene.step sb rand s ⟨.click, tid, pl, d⟩).1.cursorScale = 1 := by
        simp only [MasterScene.step, MasterScene.clickStep, hf]
      rw [h1, hc]
  · intro sc sb hl rand acts a e hk hf
    have hninit : ∀ p ∈ (CanvasScene.initState sc).nodes, (Prod.snd p).scale = 1 := by
      intro p hp
      obtain ⟨e2, he2, rfl⟩ := List.mem_map.mp hp
      rfl
    obtain ⟨hc, hn⟩ := canvas_runAll_scales sb hl rand acts (CanvasScene.initState sc)
      rfl hninit
    set t := (CanvasScene.runAll sb hl rand (CanvasScene.initState sc) acts).1 with ht
    obtain ⟨ty, tid, pl, d⟩ := a
    cases hk
    rcases tid with _ | j
    · simp [findElement, truthy] at hf
    · have hsc2 : (CanvasScene.step sb hl rand t ⟨.click, some j, pl, d⟩).1.activeScene =
          t.activeScene := by
        simp only [CanvasScene.step, CanvasScene.clickStep, hf]
        (repeat' split) <;> rfl
      have hgn : CanvasScene.getElementNode t (some j) =
          (t.nodes.find? (fun q => q.1 = j)).map (fun q => q.2) := by
        simp only [CanvasScene.getElementNode, hf]
      have hgn2 : CanvasScene.getElementNode
          (CanvasScene.step sb hl rand t ⟨.click, some j, pl, d⟩).1 (some j) =
          (((CanvasScene.step sb hl rand t ⟨.click, some j, pl, d⟩).1).nodes.find?
            (fun q => q.1 = j)).map (fun q => q.2) := by
        simp only [CanvasScene.getElementNode, hsc2, hf]
      refine ⟨?_, ?_, ?_, ?_⟩
      · simp only [CanvasScene.step, CanvasScene.clickStep, hf]
      · have h1 : (CanvasScene.step sb hl rand t
            ⟨.click, some j, pl, d⟩).1.cursorScale = 1 := by
          simp only [CanvasScene.step, CanvasScene.clickStep, hf]
        rw [h1, hc]
      · rcases hfind : t.nodes.find? (fun q => q.1 = j) with _ | q
        · have hnode : CanvasScene.getElementNode t (some j) = none := by
            rw [hgn, hfind]; rfl
          have hx : (CanvasScene.step sb hl rand t ⟨.click, some j, pl, d⟩).1.nodes =
              t.nodes := by
            simp only [CanvasScene.step, CanvasScene.clickStep, hf, hnode]
            simp [hnode]
          rw [hgn2, hx, hgn]
        · have hnode : CanvasScene.getElementNode t (some j) = some q.2 := by
            rw [hgn, hfind]; rfl
          have hqmem : q ∈ t.nodes := List.mem_of_find?_eq_some hfind
          have hscale : q.2.scale = 1 := hn q hqmem
          rw [hgn2, hgn]
          simp only [CanvasScene.step, CanvasScene.clickStep, hf, hnode]
          (repeat' split) <;>
            simp_all [canvas_updateNode_comp, canvas_find_updateNode, hfind, hscale]
      · intro n hn2
        rcases hfind : t.nodes.find? (fun q => q.1 = j) with _ | q
        · have hnode : CanvasScene.getElementNode t (some j) = none := by
            rw [hgn, hfind]; rfl
          have hx : (CanvasScene.step sb hl rand t ⟨.click, some j, pl, d⟩).1.nodes =
              t.nodes := by
            simp only [CanvasScene.step, CanvasScene.clickStep, hf, hnode]
            simp [hnode]
          rw [hgn2, hx, hfind] at hn2
          simp at hn2
        · have hnode : CanvasScene.getElementNode t (some j) = some q.2 := by
            rw [hgn, hfind]; rfl
          have hx : CanvasScene.getElementNode
              (CanvasScene.step sb hl rand t ⟨.click, some j, pl, d⟩).1 (some j) =
              some { q.2 with scale := 1, opacity := 1, shadowBlur := 0 } := by
            rw [hgn2]
            simp only [CanvasScene.step, CanvasScene.clickStep, hf, hnode]
            (repeat' split) <;>
              simp_all [canvas_updateNode_comp, canvas_find_updateNode, hfind]
          rw [hx] at hn2
          injection hn2 with h3
          rw [← h3]

/-- C9 witness: the corrected statement applied, in each renderer, to a
click on the demo element from the initial state. -/
theorem c9_witness :
    (demoClick.type = .click ∧
     findElement demoScene demoClick.targetElementId = some demoElement ∧
     findElement (MasterScene.runAll demoSb demoRand (MasterScene.initState demoScene)
        []).1.activeScene demoClick.targetElementId = some demoElement ∧
     findElement (CanvasScene.runAll demoSb "#4285f4" demoRand
        (CanvasScene.initState demoScene) []).1.activeScene demoClick.targetElementId =
       some demoElement) ∧
    (((HybridScene.step demoScene "#4285f4" demoRand
        (HybridScene.runAll demoScene "#4285f4" demoRand (HybridScene.initState demoScene)
          []).1 demoClick).1.cursorPos =
      (HybridScene.runAll demoScene "#4285f4" demoRand (HybridScene.initState demoScene)
          []).1.cursorPos) ∧
     ((HybridScene.step demoScene "#4285f4" demoRand
        (HybridScene.runAll demoScene "#4285f4" demoRand (HybridScene.initState demoScene)
          []).1 demoClick).1.cursorScale =
      (HybridScene.runAll demoScene "#4285f4" demoRand (HybridScene.initState demoScene)
          []).1.cursorScale) ∧
     ((HybridScene.getElementNode (HybridScene.step demoScene "#4285f4" demoRand
        (HybridScene.runAll demoScene "#4285f4" demoRand (HybridScene.initState demoScene)
          []).1 demoClick).1.nodes demoClick.targetElementId).map (fun n => n.scale) =
      (HybridScene.getElementNode
        (HybridScene.runAll demoScene "#4285f4" demoRand (HybridScene.initState demoScene)
          []).1.nodes demoClick.targetElementId).map (fun n => n.scale)) ∧
     (∀ n, HybridScene.getElementNode (HybridScene.step demoScene "#4285f4" demoRand
        (HybridScene.runAll demoScene "#4285f4" demoRand (HybridScene.initState demoScene)
          []).1 demoClick).1.nodes demoClick.targetElementId = some n → n.opacity = 1)) ∧
    (((MasterScene.step demoSb demoRand
        (MasterScene.runAll demoSb demoRand (MasterScene.initState demoScene)
          []).1 demoClick).1.cursorPos =
      (MasterScene.runAll demoSb demoRand (MasterScene.initState demoScene)
          []).1.cursorPos) ∧
     ((MasterScene.step demoSb demoRand
        (MasterScene.runAll demoSb demoRand (MasterScene.initState demoScene)
          []).1 demoClick).1.cursorScale =
      (MasterScene.runAll demoSb demoRand (MasterScene.initState demoScene)
          []).1.cursorScale)) ∧
    (((CanvasScene.step demoSb "#4285f4" demoRand
        (CanvasScene.runAll demoSb "#4285f4" demoRand (CanvasScene.initState demoScene)
          []).1 demoClick).1.cursorPos =
      (CanvasScene.runAll demoSb "#4285f4" demoRand (CanvasScene.initState demoScene)
          []).1.cursorPos) ∧
     ((CanvasScene.step demoSb "#4285f4" demoRand
        (CanvasScene.runAll demoSb "#4285f4" demoRand (CanvasScene.initState demoScene)
          []).1 demoClick).1.cursorScale =
      (CanvasScene.runAll demoSb "#4285f4" demoRand (CanvasScene.initState demoScene)
          []).1.cursorScale) ∧
     ((CanvasScene.getElementNode (CanvasScene.step demoSb "#4285f4" demoRand
        (CanvasScene.runAll demoSb "#4285f4" demoRand (CanvasScene.initState demoScene)
          []).1 demoClick).1 demoClick.targetElementId).map (fun n => n.scale) =
      (CanvasScene.getElementNode
        (CanvasScene.runAll demoSb "#4285f4" demoRand (CanvasScene.initState demoScene)
          []).1 demoClick.targetElementId).map (fun n => n.scale)) ∧
     (∀ n, CanvasScene.getElementNode (CanvasScene.step demoSb "#4285f4" demoRand
        (CanvasScene.runAll demoSb "#4285f4" demoRand (CanvasScene.initState demoScene)
          []).1 demoClick).1 demoClick.targetElementId = some n → n.opacity = 1)) :=
  ⟨⟨rfl, by with_unfolding_all rfl, by with_unfolding_all rfl,
      by with_unfolding_all rfl⟩,
   c9_click_press_release.1 demoScene "#4285f4" demoRand [] demoClick demoElement rfl
     (by with_unfolding_all rfl),
   c9_click_press_release.2.1 demoScene demoSb demoRand [] demoClick demoElement rfl
     (by with_unfolding_all rfl),
   c9_click_press_release.2.2 demoScene demoSb "#4285f4" demoRand [] demoClick demoElement
     rfl (by with_unfolding_all rfl)⟩

end Reelify
